import Mathlib

/-!
Verification development for the Ambulance Priority Corridor Engine of the
`medico` repository.  The engine consists of a per-intersection traffic-signal
state machine (`backend/amb/core/signal_fsm.py`), a conflict/arbitration
resolver (`backend/amb/services/conflict_resolver.py`), a route-ahead selector
(`backend/amb/services/route_service.py`) and a corridor planner
(`backend/amb/services/corridor_service.py`).

The Python code is shallowly embedded here.  Conventions used throughout:

* Python numbers (floats) are modelled by an arbitrary linear ordered field
  `α`; the pure state machine is exercised over `ℚ` (so everything is
  decidable) and the geometric layer, which computes `(dx^2 + dy^2) ** 0.5`,
  is instantiated at `ℝ` with `Real.sqrt` standing for `** 0.5`.
* `time.time()` is modelled by an explicit `now` parameter threaded into each
  call; one call uses a single instant.
* Python dictionaries are modelled by insertion-ordered association lists
  (`List (String × β)`) with first-match lookup and in-place overwrite,
  which is exactly the observable behaviour of `dict` here.
* Python exceptions (`raise ValueError`, `KeyError`) are modelled with
  `Except String`; a raised exception yields `.error`, so no state that the
  caller keeps is produced by a failing call.
* Python truthiness is preserved where it matters: `self.green_start_time and
  (...)` is false when the stored timestamp is `None` **or** `0.0`, and
  `(winner == ambulance_id) if winner else None` treats an empty-string
  winner like an absent lock.
* The formatted f-string reasons of the decision log are kept as their
  numeric components (float formatting itself is outside the model).
-/

namespace Medico

/-! ## Association-list model of Python `dict` -/

/-- First-match lookup, `d.get(k)`. -/
def lookup {β : Type _} (k : String) : List (String × β) → Option β
  | [] => none
  | (k', v) :: rest => if k' = k then some v else lookup k rest

/-- In-place overwrite `d[k] = v`: replaces the first binding of `k`,
appends at the end when `k` is absent (Python dicts keep insertion order). -/
def setKey {β : Type _} (k : String) (v : β) : List (String × β) → List (String × β)
  | [] => [(k, v)]
  | (k', v') :: rest => if k' = k then (k, v) :: rest else (k', v') :: setKey k v rest

instance {ε β : Type _} [DecidableEq ε] [DecidableEq β] : DecidableEq (Except ε β) := fun x y =>
  match x, y with
  | Except.ok a, Except.ok b =>
      if h : a = b then isTrue (by rw [h]) else isFalse (fun hh => by cases hh; exact h rfl)
  | Except.error a, Except.error b =>
      if h : a = b then isTrue (by rw [h]) else isFalse (fun hh => by cases hh; exact h rfl)
  | Except.ok _, Except.error _ => isFalse (fun hh => by cases hh)
  | Except.error _, Except.ok _ => isFalse (fun hh => by cases hh)

/-! ## `backend/amb/core/signal_fsm.py` -/

/-- The `SignalState` enum. -/
inductive SignalState where
  | normal
  | prepare_priority
  | green_for_ambulance
  | reset
deriving DecidableEq, Repr

/-- The `TransitionReason` dataclass; `α` is the number type standing for float. -/
structure TransitionReason (α : Type _) where
  reason : String
  severity : Option String
  distance : Option α
  conflict_winner : Option Bool
deriving DecidableEq, Repr

/-- The `TrafficSignalFSM` object state. -/
structure TrafficSignalFSM (α : Type _) where
  signal_id : String
  current_state : SignalState
  current_owner : Option String
  history : List (SignalState × TransitionReason α)
  green_start_time : Option α
  max_green_time : α
deriving DecidableEq, Repr

variable {α : Type _} [LinearOrderedField α]

/-- Constructor `TrafficSignalFSM.__init__`. -/
def initFSM (signal_id : String) : TrafficSignalFSM α :=
  { signal_id := signal_id
    current_state := SignalState.normal
    current_owner := none
    history := []
    green_start_time := none
    max_green_time := 60 }

/-- The `VALID_SEVERITIES` class constant. -/
def VALID_SEVERITIES : List String := ["LOW", "MODERATE", "HIGH", "CRITICAL"]

/-- Truthiness of `self.green_start_time and (now - self.green_start_time >
self.max_green_time)`: false when the stored timestamp is `None` or `0.0`
(Python treats the float `0.0` as falsy). -/
def greenTimeout (t? : Option α) (now maxg : α) : Prop :=
  match t? with
  | some t => t ≠ 0 ∧ now - t > maxg
  | none => False

instance (t? : Option α) (now maxg : α) : Decidable (greenTimeout t? now maxg) :=
  match t? with
  | some t => inferInstanceAs (Decidable (t ≠ 0 ∧ now - t > maxg))
  | none => inferInstanceAs (Decidable False)

/-- Python `str.upper()` (ASCII, which is all the engine ever feeds it),
written by structural recursion over the character list so that concrete
instances reduce. -/
def pyUpper (s : String) : String :=
  String.mk (s.data.map Char.toUpper)

/-- Python `str.strip()`: drop whitespace from both ends. -/
def pyStrip (s : String) : String :=
  String.mk (((s.data.dropWhile Char.isWhitespace).reverse.dropWhile
    Char.isWhitespace).reverse)

/-- Method `normalize_severity`: upper-case, strip, then validate; raises
`ValueError` on anything outside the valid set. -/
def normalize_severity (severity : String) : Except String String :=
  let norm := pyStrip (pyUpper severity)
  if norm ∈ VALID_SEVERITIES then Except.ok norm
  else Except.error ("Invalid severity " ++ severity)

/-- Method `TrafficSignalFSM.transition`.  Returns the mutated FSM together with the
returned state, or `.error` when severity validation raises (in which case
the Python object is untouched, since `normalize_severity` runs first).
`now` stands for `time.time()` during this call. -/
def transition (fsm : TrafficSignalFSM α) (now : α) (ambulance_id : String)
    (distance_km : α) (severity : String) (conflict_winner : Option Bool) :
    Except String (TrafficSignalFSM α × SignalState) := do
  let sev ← normalize_severity severity
  -- state/owner/green updates, branch for branch with the source
  let next : SignalState × Option String × Option α × String :=
    match fsm.current_state with
    | SignalState.normal =>
        if conflict_winner = some false then
          (SignalState.normal, fsm.current_owner, fsm.green_start_time,
           "Suppressed by conflict resolution (lost arbitration)")
        else if distance_km < 0.5 ∧ (sev = "HIGH" ∨ sev = "CRITICAL") then
          (SignalState.prepare_priority, some ambulance_id, fsm.green_start_time,
           "Ambulance approaching within 500m with HIGH/CRITICAL severity")
        else
          (SignalState.normal, fsm.current_owner, fsm.green_start_time,
           "No priority trigger (distance >= 0.5km or severity LOW/MODERATE)")
    | SignalState.prepare_priority =>
        if distance_km < 0.2 then
          (SignalState.green_for_ambulance, some ambulance_id, some now,
           "Ambulance close (<200m); grant green")
        else if distance_km > 1.0 then
          (SignalState.reset, none, fsm.green_start_time,
           "Ambulance passed (>1km); reset")
        else
          (SignalState.prepare_priority, fsm.current_owner, fsm.green_start_time, "")
    | SignalState.green_for_ambulance =>
        -- Note the source does NOT clear green_start_time on this branch.
        if distance_km > 1.0 ∨ greenTimeout fsm.green_start_time now fsm.max_green_time then
          (SignalState.reset, none, fsm.green_start_time,
           "Ambulance cleared (>1km) or max green time exceeded; reset")
        else
          (SignalState.green_for_ambulance, fsm.current_owner, fsm.green_start_time, "")
    | SignalState.reset =>
        (SignalState.normal, none, none, "Reset cycle complete")
  let reason : TransitionReason α :=
    { reason := next.2.2.2, severity := some sev, distance := some distance_km
      conflict_winner := conflict_winner }
  let hist := fsm.history ++ [(next.1, reason)]
  let hist := if hist.length > 50 then hist.drop 1 else hist
  let fsm' : TrafficSignalFSM α :=
    { fsm with
      current_state := next.1
      current_owner := next.2.1
      green_start_time := next.2.2.1
      history := hist }
  return (fsm', next.1)

/-! ## Specification-side predicates for the FSM invariants -/

/-- The invariant exactly as the specification words it: `owner` is non-null
iff the state is `PREPARE_PRIORITY` or `GREEN_FOR_AMBULANCE`, and
`green_started_at` is non-null iff the state is `GREEN_FOR_AMBULANCE`. -/
def ClaimedInv (fsm : TrafficSignalFSM α) : Prop :=
  (fsm.current_owner ≠ none ↔
    fsm.current_state = SignalState.prepare_priority ∨
    fsm.current_state = SignalState.green_for_ambulance) ∧
  (fsm.green_start_time ≠ none ↔ fsm.current_state = SignalState.green_for_ambulance)

/-- The invariant the code actually maintains: the `owner` half of the claimed
invariant is intact, but `green_start_time` survives the
`GREEN_FOR_AMBULANCE → RESET` transition (the source clears it only on the
`RESET → NORMAL` step), so in `RESET` it may be either null or the stale
timestamp of the green phase that just ended. -/
def OwnerGreenInv (fsm : TrafficSignalFSM α) : Prop :=
  (fsm.current_owner ≠ none ↔
    fsm.current_state = SignalState.prepare_priority ∨
    fsm.current_state = SignalState.green_for_ambulance) ∧
  (fsm.current_state = SignalState.green_for_ambulance → fsm.green_start_time ≠ none) ∧
  ((fsm.current_state = SignalState.normal ∨
    fsm.current_state = SignalState.prepare_priority) → fsm.green_start_time = none)

/-! Shared concrete evaluations of `transition`, used by several witnesses. -/

/-- The FSM produced by one `HIGH`-severity call at 0.49 km on a fresh signal. -/
def fsmPrep : TrafficSignalFSM ℚ :=
  { signal_id := "S1"
    current_state := SignalState.prepare_priority
    current_owner := some "AMB"
    history := [(SignalState.prepare_priority,
      { reason := "Ambulance approaching within 500m with HIGH/CRITICAL severity"
        severity := some "HIGH", distance := some 0.49, conflict_winner := none })]
    green_start_time := none
    max_green_time := 60 }

theorem norm_HIGH : pyStrip (pyUpper "HIGH") = "HIGH" := rfl

theorem norm_CRITICAL : pyStrip (pyUpper "CRITICAL") = "CRITICAL" := rfl

theorem transition_fresh_high_049 :
    transition (α := ℚ) (initFSM "S1") 0 "AMB" 0.49 "HIGH" none
      = Except.ok (fsmPrep, SignalState.prepare_priority) := by
  norm_num [transition, normalize_severity, VALID_SEVERITIES, initFSM, norm_HIGH, fsmPrep]
  try simp

/-- A signal sitting in `GREEN_FOR_AMBULANCE` (owner `A`, green since `t = 10`,
so the claimed invariant holds before the call). -/
def fsmGreen : TrafficSignalFSM ℚ :=
  { signal_id := "S1"
    current_state := SignalState.green_for_ambulance
    current_owner := some "A"
    history := []
    green_start_time := some 10
    max_green_time := 60 }

theorem transition_green_far :
    (transition (α := ℚ) fsmGreen 20 "A" 2 "HIGH" none).map
        (fun p => (p.1.current_state, p.1.current_owner, p.1.green_start_time))
      = Except.ok (SignalState.reset, none, some 10) := by
  norm_num [transition, normalize_severity, VALID_SEVERITIES, greenTimeout, fsmGreen,
    norm_HIGH, Except.map]
  try simp

/-- C1, claim as stated, is false: from `GREEN_FOR_AMBULANCE` (where it holds),
a transition at distance 2 km moves the signal to `RESET` but leaves
`green_start_time` non-null, because the source only clears that field on the
`RESET → NORMAL` step. -/
theorem C1_counterexample :
    ¬ (∀ (fsm : TrafficSignalFSM ℚ) (now : ℚ) (amb : String) (d : ℚ) (sev : String)
        (cw : Option Bool) (p : TrafficSignalFSM ℚ × SignalState),
        ClaimedInv fsm → transition fsm now amb d sev cw = Except.ok p → ClaimedInv p.1) := by
  intro h
  have hpre : ClaimedInv fsmGreen := by
    constructor <;> simp [fsmGreen]
  obtain ⟨p, hp⟩ : ∃ p, transition (α := ℚ) fsmGreen 20 "A" 2 "HIGH" none = Except.ok p := by
    have := transition_green_far
    cases htr : transition (α := ℚ) fsmGreen 20 "A" 2 "HIGH" none with
    | ok q => exact ⟨q, rfl⟩
    | error e => rw [htr] at this; exact absurd this (by simp [Except.map])
  have hpost := h fsmGreen 20 "A" 2 "HIGH" none p hpre hp
  have := transition_green_far
  rw [hp] at this
  simp only [Except.map] at this
  have hstate : p.1.current_state = SignalState.reset := by
    cases p with | mk a b => simpa using congrArg (fun q => q.1) (Except.ok.inj this)
  have hgreen : p.1.green_start_time = some 10 := by
    cases p with | mk a b => simpa using congrArg (fun q => q.2.2) (Except.ok.inj this)
  have := hpost.2.mp (by rw [hgreen]; simp)
  rw [hstate] at this
  exact SignalState.noConfusion this

/-- C1 amended: every successful `transition` call preserves the invariant the
code actually maintains — the `owner` biconditional exactly as claimed, and
`green_start_time` non-null in `GREEN_FOR_AMBULANCE`, null in `NORMAL` and
`PREPARE_PRIORITY`, but possibly stale (non-null) in `RESET`. -/
theorem C1_owner_green_invariant (fsm : TrafficSignalFSM α) (now : α) (amb : String)
    (d : α) (sev : String) (cw : Option Bool) (p : TrafficSignalFSM α × SignalState)
    (hInv : OwnerGreenInv fsm) (htr : transition fsm now amb d sev cw = Except.ok p) :
    OwnerGreenInv p.1 := by
  obtain ⟨hOwner, hGreenSome, hGreenNone⟩ := hInv
  cases hn : normalize_severity sev with
  | error e => rw [transition, hn] at htr; exact absurd htr (by simp [Except.bind])
  | ok s =>
    rw [transition, hn] at htr
    simp only [Except.bind, bind, pure, Except.pure] at htr
    have hp := (Except.ok.inj htr).symm
    subst hp
    cases hst : fsm.current_state <;>
      simp only [OwnerGreenInv, hst] <;>
      first
      | (split_ifs <;> simp_all)
      | simp_all

/-- Witness for `C1_owner_green_invariant` at a fresh signal driven to
`PREPARE_PRIORITY`. -/
theorem C1_witness : OwnerGreenInv (α := ℚ) (initFSM "S1") ∧ OwnerGreenInv fsmPrep :=
  ⟨by constructor <;> simp [initFSM, OwnerGreenInv],
   C1_owner_green_invariant (initFSM "S1") 0 "AMB" 0.49 "HIGH" none
     (fsmPrep, SignalState.prepare_priority)
     (by constructor <;> simp [initFSM, OwnerGreenInv])
     transition_fresh_high_049⟩

/-- The timeout guard, spelled out: there is a stored timestamp, it is
non-zero, and more than `maxg` has elapsed. -/
theorem greenTimeout_iff (t? : Option α) (now maxg : α) :
    greenTimeout t? now maxg ↔ ∃ t, t? = some t ∧ t ≠ 0 ∧ now - t > maxg := by
  cases t? <;> simp [greenTimeout]

/-- A signal green since timestamp `0` (the Python-falsy epoch). -/
def fsmGreenZero : TrafficSignalFSM ℚ :=
  { signal_id := "S1"
    current_state := SignalState.green_for_ambulance
    current_owner := some "A"
    history := []
    green_start_time := some 0
    max_green_time := 60 }

theorem transition_greenZero_stays :
    (transition (α := ℚ) fsmGreenZero 61 "A" 0.5 "HIGH" none).map Prod.snd
      = Except.ok SignalState.green_for_ambulance := by
  norm_num [transition, normalize_severity, VALID_SEVERITIES, greenTimeout, fsmGreenZero,
    norm_HIGH, Except.map]
  try simp

/-- C5, claim as stated, is false on one edge: with `green_started_at = 0.0`
(61 seconds before `now = 61`) the source's `self.green_start_time and (...)`
guard is falsy, so the signal stays `GREEN_FOR_AMBULANCE` even though the
elapsed time exceeds `max_green_seconds`. -/
theorem C5_counterexample :
    ¬ (∀ (fsm : TrafficSignalFSM ℚ) (now : ℚ) (amb : String) (d : ℚ) (sev s : String)
        (cw : Option Bool) (p : TrafficSignalFSM ℚ × SignalState),
        normalize_severity sev = Except.ok s →
        transition fsm now amb d sev cw = Except.ok p →
        fsm.current_state = SignalState.green_for_ambulance →
        (p.2 = SignalState.reset ↔
          (d > 1.0 ∨ ∃ t, fsm.green_start_time = some t ∧ now - t > fsm.max_green_time))) := by
  intro h
  obtain ⟨p, hp⟩ : ∃ p, transition (α := ℚ) fsmGreenZero 61 "A" 0.5 "HIGH" none
      = Except.ok p := by
    have := transition_greenZero_stays
    cases htr : transition (α := ℚ) fsmGreenZero 61 "A" 0.5 "HIGH" none with
    | ok q => exact ⟨q, rfl⟩
    | error e => rw [htr] at this; exact absurd this (by simp [Except.map])
  have hiff := h fsmGreenZero 61 "A" 0.5 "HIGH" "HIGH" none p rfl hp rfl
  have hstay : p.2 = SignalState.green_for_ambulance := by
    have := transition_greenZero_stays
    rw [hp] at this
    simpa [Except.map] using this
  have : p.2 = SignalState.reset := hiff.mpr (Or.inr ⟨0, rfl, by norm_num [fsmGreenZero]⟩)
  rw [hstay] at this
  exact SignalState.noConfusion this

/-- C5 amended: the §4.1 table holds exactly as claimed except that the
`GREEN_FOR_AMBULANCE` timeout fires only when the stored timestamp is also
non-zero (Python truthiness of `self.green_start_time`).  The universal part
gives every row of the table; the concrete parts are the 0.49 km / 0.51 km
boundary checks and the 61-seconds-elapsed reset (with a non-zero start
timestamp), the latter for every distance. -/
theorem C5_transition_table :
    (∀ (fsm : TrafficSignalFSM α) (now : α) (amb : String) (d : α) (sev s : String)
        (cw : Option Bool) (p : TrafficSignalFSM α × SignalState),
        normalize_severity sev = Except.ok s →
        transition fsm now amb d sev cw = Except.ok p →
        ((fsm.current_state = SignalState.normal →
            p.2 = (if ¬ cw = some false ∧ d < 0.5 ∧ (s = "HIGH" ∨ s = "CRITICAL")
              then SignalState.prepare_priority else SignalState.normal)) ∧
         (fsm.current_state = SignalState.prepare_priority →
            p.2 = (if d < 0.2 then SignalState.green_for_ambulance
              else if d > 1.0 then SignalState.reset else SignalState.prepare_priority)) ∧
         (fsm.current_state = SignalState.green_for_ambulance →
            p.2 = (if d > 1.0 ∨ ∃ t, fsm.green_start_time = some t ∧ t ≠ 0 ∧
                now - t > fsm.max_green_time
              then SignalState.reset else SignalState.green_for_ambulance)) ∧
         (fsm.current_state = SignalState.reset →
            p.2 = SignalState.normal ∧ p.1.current_owner = none ∧
              p.1.green_start_time = none))) ∧
    ((transition (α := ℚ) (initFSM "S0") 7 "A" 0.49 "HIGH" none).map Prod.snd
        = Except.ok SignalState.prepare_priority) ∧
    ((transition (α := ℚ) (initFSM "S0") 7 "A" 0.51 "HIGH" none).map Prod.snd
        = Except.ok SignalState.normal) ∧
    (∀ d : ℚ, (transition (α := ℚ)
        { signal_id := "S1", current_state := SignalState.green_for_ambulance,
          current_owner := some "A", history := [], green_start_time := some 39,
          max_green_time := 60 } 100 "A" d "HIGH" none).map Prod.snd
        = Except.ok SignalState.reset) := by
  refine ⟨?_, ?_, ?_, ?_⟩
  · intro fsm now amb d sev s cw p hn htr
    rw [transition, hn] at htr
    simp only [Except.bind, bind, pure, Except.pure] at htr
    have hp := (Except.ok.inj htr).symm
    subst hp
    refine ⟨?_, ?_, ?_, ?_⟩ <;> intro hst <;>
      simp only [hst, ← greenTimeout_iff] <;>
      first
      | (split_ifs <;> simp_all)
      | simp_all
  · norm_num [transition, normalize_severity, VALID_SEVERITIES, initFSM, norm_HIGH, Except.map]
    try simp
  · norm_num [transition, normalize_severity, VALID_SEVERITIES, initFSM, norm_HIGH, Except.map]
    try simp
  · intro d
    norm_num [transition, normalize_severity, VALID_SEVERITIES, greenTimeout, norm_HIGH,
      Except.map]
    try simp

/-- Witness for `C5_transition_table` on the NORMAL row at 0.49 km. -/
theorem C5_witness :
    normalize_severity "HIGH" = Except.ok "HIGH" ∧
    SignalState.prepare_priority
      = (if ¬ (none : Option Bool) = some false ∧ (0.49 : ℚ) < 0.5 ∧
            ("HIGH" = "HIGH" ∨ "HIGH" = "CRITICAL")
          then SignalState.prepare_priority else SignalState.normal) := by
  refine ⟨rfl, ?_⟩
  have h := (C5_transition_table (α := ℚ)).1 (initFSM "S1") 0 "AMB" 0.49 "HIGH" "HIGH" none
    (fsmPrep, SignalState.prepare_priority) rfl transition_fresh_high_049
  exact h.1 rfl

/-- C7: an input whose severity string does not normalize to one of the four
valid values makes `transition` raise `ValueError` before touching anything:
no `.ok` result exists, so state, owner, green timestamp and history are all
those of the unmodified object. -/
theorem C7_invalid_severity_rejected (fsm : TrafficSignalFSM α) (now : α) (amb : String)
    (d : α) (sev : String) (cw : Option Bool)
    (h : pyStrip (pyUpper sev) ∉ VALID_SEVERITIES) :
    transition fsm now amb d sev cw = Except.error ("Invalid severity " ++ sev) ∧
    ∀ p, transition fsm now amb d sev cw ≠ Except.ok p := by
  have herr : transition fsm now amb d sev cw = Except.error ("Invalid severity " ++ sev) := by
    rw [transition, normalize_severity]
    simp [Except.bind, h]
  exact ⟨herr, fun p hp => by rw [herr] at hp; exact Except.noConfusion hp⟩

/-- Witness for `C7_invalid_severity_rejected` with the severity `"BOGUS"`. -/
theorem C7_witness :
    pyStrip (pyUpper "BOGUS") ∉ VALID_SEVERITIES ∧
    transition (α := ℚ) (initFSM "S1") 0 "A" 0.1 "BOGUS" none
      = Except.error ("Invalid severity " ++ "BOGUS") := by
  have h : pyStrip (pyUpper "BOGUS") ∉ VALID_SEVERITIES := by decide
  exact ⟨h, (C7_invalid_severity_rejected (initFSM "S1") 0 "A" 0.1 "BOGUS" none h).1⟩

/-- C10: in `PREPARE_PRIORITY` the transition never compares the caller to the
current owner and never consults the arbitration outcome: any vehicle calling
at distance < 0.2 km with a valid severity takes the green and becomes owner,
even with `conflict_winner = some false`. -/
theorem C10_prepare_ignores_owner (fsm : TrafficSignalFSM α) (now : α) (v v' : String)
    (d : α) (sev s : String) (cw : Option Bool) (p : TrafficSignalFSM α × SignalState)
    (hst : fsm.current_state = SignalState.prepare_priority)
    (hown : fsm.current_owner = some v) (hd : d < 0.2)
    (hn : normalize_severity sev = Except.ok s)
    (htr : transition fsm now v' d sev cw = Except.ok p) :
    p.2 = SignalState.green_for_ambulance ∧ p.1.current_owner = some v' ∧
      p.1.green_start_time = some now := by
  rw [transition, hn] at htr
  simp only [Except.bind, bind, pure, Except.pure] at htr
  have hp := (Except.ok.inj htr).symm
  subst hp
  simp [hst, hd]

/-- The FSM produced from `fsmPrep` (owner `"AMB"`) when a different vehicle
`"AMB2"` arrives at 0.1 km with a lost arbitration outcome. -/
theorem transition_prep_hijack :
    (transition (α := ℚ) fsmPrep 5 "AMB2" 0.1 "HIGH" (some false)).map
        (fun p => (p.2, p.1.current_owner, p.1.green_start_time))
      = Except.ok (SignalState.green_for_ambulance, some "AMB2", some 5) := by
  norm_num [transition, normalize_severity, VALID_SEVERITIES, fsmPrep, norm_HIGH, Except.map]
  try simp

/-- Witness for `C10_prepare_ignores_owner`: vehicle `"AMB2"` steals the green
from owner `"AMB"` while being marked `suppressed`. -/
theorem C10_witness :
    fsmPrep.current_state = SignalState.prepare_priority ∧
    fsmPrep.current_owner = some "AMB" ∧ (0.1 : ℚ) < 0.2 ∧
    ∃ p : TrafficSignalFSM ℚ × SignalState,
      transition (α := ℚ) fsmPrep 5 "AMB2" 0.1 "HIGH" (some false) = Except.ok p ∧
      p.2 = SignalState.green_for_ambulance ∧ p.1.current_owner = some "AMB2" := by
  refine ⟨rfl, rfl, by norm_num, ?_⟩
  obtain ⟨p, hp⟩ : ∃ p, transition (α := ℚ) fsmPrep 5 "AMB2" 0.1 "HIGH" (some false)
      = Except.ok p := by
    have := transition_prep_hijack
    cases htr : transition (α := ℚ) fsmPrep 5 "AMB2" 0.1 "HIGH" (some false) with
    | ok q => exact ⟨q, rfl⟩
    | error e => rw [htr] at this; exact absurd this (by simp [Except.map])
  have h := C10_prepare_ignores_owner fsmPrep 5 "AMB" "AMB2" 0.1 "HIGH" "HIGH" (some false) p
    rfl rfl (by norm_num) rfl hp
  exact ⟨p, hp, h.1, h.2.1⟩

/-! ## Shared in-memory stores and geometry

`GPS_STORE`, `AMBULANCE_REGISTRY`, `ROUTES`, `SIGNAL_POSITIONS`,
`SIGNAL_STORE`, `RESOURCE_LOCKS` and `DECISION_LOG` are module-level dicts in
the source; here they are gathered into one explicit `EngineState` record
threaded through the service functions.  The registry keeps only the
`hospital_id` field the engine reads. -/

/-- The fields of a `GPSState` sample the engine reads. -/
structure GPSState where
  lat : ℝ
  lng : ℝ
  speed_kmh : ℝ
  updated_at : ℝ

/-- One record of `DECISION_LOG` (`timestamp/resource/winner/reason/losers`);
the f-string reason is kept as its numeric components. -/
structure DecisionLogEntry where
  timestamp : ℝ
  resource : String
  winner : String
  losers : List String
  reason_sev : ℤ
  reason_eta : ℝ
  reason_dist : ℝ

/-- All module-level mutable dictionaries of the engine. -/
structure EngineState where
  gps_store : List (String × GPSState)
  ambulance_registry : List (String × Option String)
  routes : List (String × List String)
  signal_positions : List (String × (ℝ × ℝ))
  signal_store : List (String × TrafficSignalFSM ℝ)
  resource_locks : List (String × Option String)
  decision_log : List DecisionLogEntry

/-- Computes `((x1 - x2)**2 + (y1 - y2)**2)**0.5 * 111`, the flat-earth distance the
source computes inline at every call site (`**0.5` is the real square root,
hence this layer of the model is noncomputable). -/
noncomputable def flatDist (lat1 lng1 lat2 lng2 : ℝ) : ℝ :=
  Real.sqrt ((lat1 - lat2) ^ 2 + (lng1 - lng2) ^ 2) * 111

/-! ## `backend/amb/services/signal_service.py` -/

/-- Function `get_or_init_signal`: lazily create the FSM on first reference.  Returns
the (possibly grown) store together with the fetched FSM. -/
noncomputable def get_or_init_signal (store : List (String × TrafficSignalFSM ℝ)) (signal_id : String) :
    List (String × TrafficSignalFSM ℝ) × TrafficSignalFSM ℝ :=
  match lookup signal_id store with
  | some fsm => (store, fsm)
  | none => (setKey signal_id (initFSM signal_id) store, initFSM signal_id)

/-! ## `backend/amb/services/route_service.py` -/

/-- The `for i, sig_id in enumerate(route)` loop of `get_route_ahead_signals`:
skip signals without a stored position, record `(i, sig_id, dist)` for the
rest. -/
noncomputable def routeDistances (gps : GPSState) (positions : List (String × (ℝ × ℝ))) :
    ℕ → List String → List (ℕ × String × ℝ)
  | _, [] => []
  | i, sig_id :: rest =>
    match lookup sig_id positions with
    | none => routeDistances gps positions (i + 1) rest
    | some q => (i, sig_id, flatDist gps.lat gps.lng q.1 q.2)
        :: routeDistances gps positions (i + 1) rest

/-- Function `get_route_ahead_signals`: distances from the vehicle to every positioned
signal of its route (with their route indices), stable-sorted ascending
(CPython's sort is stable; `List.insertionSort` with `≤` on the key is too);
start the window at the closest index, or one later when the closest is
within 0.3 km; return the route slice of length ≤ `max_ahead`. -/
noncomputable def get_route_ahead_signals (st : EngineState) (ambulance_id : String)
    (max_ahead : ℕ) : List String :=
  match lookup ambulance_id st.gps_store with
  | none => []
  | some gps =>
    match (lookup ambulance_id st.ambulance_registry).join with
    | none => []
    | some hospital_id =>
      match lookup hospital_id st.routes with
      | none => []
      | some route =>
        let distances := routeDistances gps st.signal_positions 0 route
        if distances = [] then []
        else
          let sorted := distances.insertionSort fun a b => a.2.2 ≤ b.2.2
          let head := sorted.headI
          let current_idx := if head.2.2 < 0.3 then head.1 + 1 else head.1
          let ahead_signals := (route.drop current_idx).take max_ahead
          ahead_signals.take max_ahead

/-! ## `backend/amb/services/conflict_resolver.py` -/

/-- The `PriorityScore` dataclass (the reason string is recoverable from the
numeric fields). -/
structure PriorityScore where
  ambulance_id : String
  severity_score : ℤ
  eta_seconds : ℝ
  dist_km : ℝ
  arrival_time : ℝ

/-- Lookup `SEVERITY_MAP[...].value`; an unknown key raises `KeyError`. -/
def SEVERITY_MAP (sev : String) : Option ℤ :=
  if sev = "LOW" then some 1
  else if sev = "MODERATE" then some 2
  else if sev = "HIGH" then some 3
  else if sev = "CRITICAL" then some 4
  else none

/-- Python's tuple comparison
`(a.sev, -a.eta, -a.dist, a.arrival) > (b.sev, -b.eta, -b.dist, b.arrival)`,
the order `max(scores, key=...)` uses. -/
def keyGt (a b : PriorityScore) : Prop :=
  a.severity_score > b.severity_score ∨
  (a.severity_score = b.severity_score ∧
    (-a.eta_seconds > -b.eta_seconds ∨
     (-a.eta_seconds = -b.eta_seconds ∧
       (-a.dist_km > -b.dist_km ∨
        (-a.dist_km = -b.dist_km ∧ a.arrival_time > b.arrival_time)))))

noncomputable instance (a b : PriorityScore) : Decidable (keyGt a b) := by
  unfold keyGt; infer_instance

/-- CPython `max(xs, key=...)`: fold keeping the current maximum, replacing it
only when a later element compares strictly greater — so ties keep the
earliest element. -/
noncomputable def pyMax (m : PriorityScore) : List PriorityScore → PriorityScore
  | [] => m
  | x :: rest => pyMax (if keyGt x m then x else m) rest

/-- The scoring loop of `resolve_conflict`: skip candidates without a GPS
sample; look up their severity (default `"LOW"`), score it (`KeyError` on an
invalid severity string), compute distance to the resource (`KeyError` when
the resource has no stored position) and pseudo-ETA
(`dist / (speed_kmh / 3.6)`, `999` when the speed is not positive). -/
noncomputable def buildScores (st : EngineState) (resource_id : String)
    (severity_map : List (String × String)) : List String → Except String (List PriorityScore)
  | [] => Except.ok []
  | amb_id :: rest =>
    match lookup amb_id st.gps_store with
    | none => buildScores st resource_id severity_map rest
    | some gps =>
      let sev := (lookup amb_id severity_map).getD "LOW"
      match SEVERITY_MAP sev with
      | none => Except.error ("KeyError: " ++ sev)
      | some sev_score =>
        match lookup resource_id st.signal_positions with
        | none => Except.error ("KeyError: " ++ resource_id)
        | some pos =>
          let dist := flatDist gps.lat gps.lng pos.1 pos.2
          let eta := if gps.speed_kmh > 0 then dist / (gps.speed_kmh / 3.6) else 999
          (buildScores st resource_id severity_map rest).map
            (fun scores =>
              { ambulance_id := amb_id, severity_score := sev_score, eta_seconds := eta
                dist_km := dist, arrival_time := gps.updated_at } :: scores)

/-- Function `resolve_conflict`: score the candidates; with no eligible candidate set
the lock to `None` and return `None` (no log entry); otherwise pick the
winner, overwrite the lock, and append one decision-log entry (log capped at
1000, oldest evicted). -/
noncomputable def resolve_conflict (st : EngineState) (resource_id : String)
    (candidates : List String) (severity_map : List (String × String)) (now : ℝ) :
    Except String (EngineState × Option String) :=
  match buildScores st resource_id severity_map candidates with
  | Except.error e => Except.error e
  | Except.ok scores =>
    match scores with
    | [] =>
      Except.ok
        ({ st with resource_locks := setKey resource_id none st.resource_locks }, none)
    | s0 :: srest =>
      let winner := pyMax s0 srest
      let entry : DecisionLogEntry :=
        { timestamp := now, resource := resource_id, winner := winner.ambulance_id
          losers := ((s0 :: srest).filter
              (fun s => s.ambulance_id != winner.ambulance_id)).map
            (fun s => s.ambulance_id)
          reason_sev := winner.severity_score, reason_eta := winner.eta_seconds
          reason_dist := winner.dist_km }
      let log := st.decision_log ++ [entry]
      let log := if log.length > 1000 then log.drop 1 else log
      Except.ok
        ({ st with
            resource_locks := setKey resource_id (some winner.ambulance_id) st.resource_locks
            decision_log := log },
          some winner.ambulance_id)

/-! ## `backend/amb/services/corridor_service.py` -/

/-- Constant `MAX_CORRIDOR_SIGNALS`. -/
def MAX_CORRIDOR_SIGNALS : ℕ := 3

/-- The filter loop of `get_corridor_ahead`: keep positioned signals within
1.5 km.  The source calls `get_or_init_signal` on every positioned candidate
(before the 1.5 km test), so even dropped signals get lazily created. -/
noncomputable def corridorFilter (gps : GPSState) (positions : List (String × (ℝ × ℝ))) :
    List (String × TrafficSignalFSM ℝ) → List String →
    List (String × TrafficSignalFSM ℝ) × List String
  | store, [] => (store, [])
  | store, sig_id :: rest =>
    match lookup sig_id positions with
    | none => corridorFilter gps positions store rest
    | some pos =>
      let dist := flatDist gps.lat gps.lng pos.1 pos.2
      let store' := (get_or_init_signal store sig_id).1
      if dist > 1.5 then corridorFilter gps positions store' rest
      else
        let r := corridorFilter gps positions store' rest
        (r.1, sig_id :: r.2)

/-- The per-signal distance of the activation loop (`999` when the signal has
no stored position). -/
noncomputable def corridorDist (gps : GPSState) (positions : List (String × (ℝ × ℝ)))
    (sig_id : String) : ℝ :=
  match lookup sig_id positions with
  | some pos => flatDist gps.lat gps.lng pos.1 pos.2
  | none => 999

/-- Embeds `winner = RESOURCE_LOCKS.get(sig_id); (winner == ambulance_id) if winner
else None` — note Python truthiness: an absent lock, a stored `None` and an
empty-string winner all yield `None`. -/
def lockOutcome (locks : List (String × Option String)) (sig_id ambulance_id : String) :
    Option Bool :=
  match (lookup sig_id locks).join with
  | some w => if w = "" then none else some (decide (w = ambulance_id))
  | none => none

/-- One iteration of the Phase-4 staggered-activation loop: skip signals
already in `PREPARE_PRIORITY`/`GREEN_FOR_AMBULANCE`; read the arbitration
outcome off `RESOURCE_LOCKS`; apply the chain-reaction gate for non-first
signals at `CRITICAL` severity; otherwise drive `transition`.  A raised
`ValueError` propagates (second component). -/
noncomputable def corridorStep (st : EngineState) (gps : GPSState)
    (ambulance_id severity : String) (now : ℝ) (prior : Option String) (sig_id : String) :
    EngineState × Option String :=
  let r := get_or_init_signal st.signal_store sig_id
  let st := { st with signal_store := r.1 }
  let fsm := r.2
  if fsm.current_state = SignalState.green_for_ambulance ∨
      fsm.current_state = SignalState.prepare_priority then
    (st, none)
  else
    let dist : ℝ := corridorDist gps st.signal_positions sig_id
    let is_winner : Option Bool := lockOutcome st.resource_locks sig_id ambulance_id
    let fire := fun (st : EngineState) =>
      match transition fsm now ambulance_id dist severity is_winner with
      | Except.ok p => ({ st with signal_store := setKey sig_id p.1 st.signal_store }, none)
      | Except.error e => (st, some e)
    match prior with
    | some prior_sig =>
      if severity = "CRITICAL" then
        let pr := get_or_init_signal st.signal_store prior_sig
        let st := { st with signal_store := pr.1 }
        if pr.2.current_state = SignalState.prepare_priority ∨
            pr.2.current_state = SignalState.green_for_ambulance then
          fire st
        else (st, none)
      else fire st
    | none => fire st

/-- The whole activation loop (`for i, sig_id in enumerate(relevant)`), with
`prior` carrying `relevant[i-1]`. -/
noncomputable def corridorLoop (gps : GPSState) (ambulance_id severity : String) (now : ℝ) :
    EngineState → Option String → List String → EngineState × Option String
  | st, _, [] => (st, none)
  | st, prior, sig_id :: rest =>
    match corridorStep st gps ambulance_id severity now prior sig_id with
    | (st', none) => corridorLoop gps ambulance_id severity now st' (some sig_id) rest
    | (st', some e) => (st', some e)

/-- Function `get_corridor_ahead`: route-aware candidate selection with a
distance-based fallback, the 1.5 km filter, then the staggered-activation
loop.  Returns the updated stores and the filtered corridor (or the raised
error, with the mutations already applied kept). -/
noncomputable def get_corridor_ahead (st : EngineState) (ambulance_id severity : String)
    (max_signals : ℕ) (now : ℝ) : EngineState × Except String (List String) :=
  match lookup ambulance_id st.gps_store with
  | none => (st, Except.ok [])
  | some gps =>
    let route_signals := get_route_ahead_signals st ambulance_id max_signals
    let relevant :=
      if route_signals ≠ [] then route_signals.take max_signals
      else
        match (lookup ambulance_id st.ambulance_registry).join with
        | none => []
        | some hospital_id =>
          match lookup hospital_id st.routes with
          | none => []
          | some route =>
            let distances := route.filterMap fun sig_id =>
              (lookup sig_id st.signal_positions).map fun pos =>
                (sig_id, flatDist gps.lat gps.lng pos.1 pos.2)
            let sorted := distances.insertionSort fun a b => a.2 ≤ b.2
            ((sorted.take max_signals).filter fun x => decide (x.2 < 2.0)).map Prod.fst
    let fr := corridorFilter gps st.signal_positions st.signal_store relevant
    let st := { st with signal_store := fr.1 }
    let filtered := fr.2
    match corridorLoop gps ambulance_id severity now st none filtered with
    | (st', none) => (st', Except.ok filtered)
    | (st', some e) => (st', Except.error e)

/-! ## Helper lemmas about the dictionary model -/

theorem lookup_setKey_self {β : Type _} (k : String) (v : β) (l : List (String × β)) :
    lookup k (setKey k v l) = some v := by
  induction l with
  | nil => simp [lookup, setKey]
  | cons hd tl ih =>
    by_cases h : hd.1 = k
    · simp [lookup, setKey, h]
    · cases hd with
      | mk k' v' => simp only [setKey, lookup, h, if_neg] at *; simp [lookup, h, ih]

theorem lookup_setKey_ne {β : Type _} (k k' : String) (v : β) (l : List (String × β))
    (h : k' ≠ k) : lookup k' (setKey k v l) = lookup k' l := by
  induction l with
  | nil => simp [lookup, setKey, Ne.symm h]
  | cons hd tl ih =>
    cases hd with
    | mk a b =>
      by_cases ha : a = k
      · subst ha; simp [lookup, setKey, Ne.symm h]
      · simp [lookup, setKey, ha, ih]

/-! ## C4: resolver lock overwrite and decision logging -/

/-- The empty engine state. -/
def stEmpty : EngineState :=
  { gps_store := [], ambulance_registry := [], routes := [], signal_positions := []
    signal_store := [], resource_locks := [], decision_log := [] }

theorem resolve_conflict_no_candidates :
    resolve_conflict stEmpty "SIG-1" ["A"] [] 0
      = Except.ok
          ({ stEmpty with resource_locks := [("SIG-1", none)] }, none) := by
  simp [resolve_conflict, buildScores, lookup, setKey, stEmpty]

/-- C4, claim as stated, is false: with zero eligible candidates (here one
candidate without a GPS sample) `resolve_conflict` sets the lock to `None`
but appends **no** `DecisionLogEntry` — the log-append lives only on the
nonempty-scores path. -/
theorem C4_counterexample :
    ¬ (∀ (st : EngineState) (rid : String) (cands : List String)
        (smap : List (String × String)) (now : ℝ) (p : EngineState × Option String),
        resolve_conflict st rid cands smap now = Except.ok p →
        p.1.decision_log.length = min (st.decision_log.length + 1) 1000) := by
  intro h
  have := h stEmpty "SIG-1" ["A"] [] 0 _ resolve_conflict_no_candidates
  simp [stEmpty] at this

/-- C4 amended: every successful `resolve_conflict` call overwrites
`ResourceLock[resource_id]` with exactly the returned winner (`None` when no
candidate had usable position data); a decision-log entry — capturing the
winner, the resource and the losers as the other scored candidates — is
appended (bounded by 1000) exactly when a winner exists, while the
zero-eligible case leaves the log untouched.  Neither case is an error. -/
theorem C4_lock_and_log (st : EngineState) (rid : String) (cands : List String)
    (smap : List (String × String)) (now : ℝ) (p : EngineState × Option String)
    (hlen : st.decision_log.length ≤ 1000)
    (h : resolve_conflict st rid cands smap now = Except.ok p) :
    lookup rid p.1.resource_locks = some p.2 ∧
    (p.2 = none → p.1.decision_log = st.decision_log) ∧
    (∀ w, p.2 = some w →
      p.1.decision_log.length = min (st.decision_log.length + 1) 1000 ∧
      ∃ e, p.1.decision_log.getLast? = some e ∧ e.winner = w ∧ e.resource = rid ∧
        e.timestamp = now) := by
  rw [resolve_conflict] at h
  cases hb : buildScores st rid smap cands with
  | error e => rw [hb] at h; exact absurd h (by simp)
  | ok scores =>
    rw [hb] at h
    cases scores with
    | nil =>
      have hp := (Except.ok.inj h).symm
      subst hp
      refine ⟨lookup_setKey_self _ _ _, fun _ => rfl, fun w hw => ?_⟩
      exact absurd hw (by simp)
    | cons s0 srest =>
      have hp := (Except.ok.inj h).symm
      subst hp
      refine ⟨lookup_setKey_self _ _ _, fun hnone => absurd hnone (by simp), fun w hw => ?_⟩
      have hw' : (pyMax s0 srest).ambulance_id = w := by simpa using hw
      constructor
      · by_cases hcap : (st.decision_log.length + 1) > 1000
        · have h1000 : st.decision_log.length = 1000 := le_antisymm hlen (by omega)
          simp [List.length_append, hcap, h1000]
        · simp only [List.length_append, List.length_cons, List.length_nil, zero_add]
          rw [if_neg (by omega)]
          simp only [List.length_append, List.length_cons, List.length_nil, zero_add]
          omega
      · refine ⟨{ timestamp := now
                  resource := rid
                  winner := (pyMax s0 srest).ambulance_id
                  losers := ((s0 :: srest).filter
                      (fun s => s.ambulance_id != (pyMax s0 srest).ambulance_id)).map
                    (fun s => s.ambulance_id)
                  reason_sev := (pyMax s0 srest).severity_score
                  reason_eta := (pyMax s0 srest).eta_seconds
                  reason_dist := (pyMax s0 srest).dist_km }, ?_, hw', rfl, rfl⟩
        by_cases hcap : st.decision_log.length + 1 > 1000
        · rw [if_pos (by simpa using hcap)]
          have hne : st.decision_log ≠ [] := by
            intro hnil; rw [hnil] at hcap; simp at hcap
          rw [List.drop_append_of_le_length (by omega)]
          try simp
        · rw [if_neg (by simpa using hcap)]
          try simp

/-- The decision-log entry produced by arbitrating `SIG-1` for the single
stationary vehicle `A` of `stOneVehicle`. -/
noncomputable def logEntryA : DecisionLogEntry :=
  { timestamp := 0
    resource := "SIG-1"
    winner := "A"
    losers := []
    reason_sev := 1
    reason_eta := 999
    reason_dist := 0 }

/-- A state holding one stationary vehicle co-located with signal `SIG-1`. -/
noncomputable def stOneVehicle : EngineState :=
  { gps_store := [("A", { lat := 0, lng := 0, speed_kmh := 0, updated_at := 5 })]
    ambulance_registry := [], routes := []
    signal_positions := [("SIG-1", (0, 0))]
    signal_store := [], resource_locks := [], decision_log := [] }

theorem resolve_conflict_one_vehicle :
    resolve_conflict stOneVehicle "SIG-1" ["A"] [] 0
      = Except.ok
          ({ stOneVehicle with
              resource_locks := [("SIG-1", some "A")]
              decision_log := [logEntryA] },
            some "A") := by
  have hd : flatDist 0 0 0 0 = 0 := by simp [flatDist]
  simp [resolve_conflict, buildScores, lookup, SEVERITY_MAP, stOneVehicle, hd, pyMax, setKey,
    logEntryA, Except.map]

/-- Witness for `C4_lock_and_log` with a single eligible candidate. -/
theorem C4_witness :
    stOneVehicle.decision_log.length ≤ 1000 ∧
    lookup "SIG-1"
        ({ stOneVehicle with
            resource_locks := [("SIG-1", some "A")]
            decision_log := [logEntryA] } : EngineState).resource_locks
      = some (some "A") := by
  have h := C4_lock_and_log stOneVehicle "SIG-1" ["A"] [] 0 _
    (by simp [stOneVehicle]) resolve_conflict_one_vehicle
  exact ⟨by simp [stOneVehicle], h.1⟩

/-! ## C6: resolver scoring -/

/-- Along one axis `flatDist` is just the scaled coordinate gap. -/
theorem flatDist_axis (a b : ℝ) : flatDist a 0 b 0 = |a - b| * 111 := by
  unfold flatDist
  norm_num [Real.sqrt_sq_eq_abs]

/-- Along one axis, oriented. -/
theorem flatDist_axis_nonneg (a b : ℝ) (h : b ≤ a) : flatDist a 0 b 0 = (a - b) * 111 := by
  rw [flatDist_axis, abs_of_nonneg (by linarith)]

/-- Relation `keyGt` is the strict lexicographic order on the Python key tuples. -/
theorem keyGt_iff_lex (a b : PriorityScore) :
    keyGt a b ↔
      toLex (b.severity_score, toLex (-b.eta_seconds, toLex (-b.dist_km, b.arrival_time)))
        < toLex (a.severity_score, toLex (-a.eta_seconds, toLex (-a.dist_km, a.arrival_time))) := by
  simp only [keyGt, Prod.Lex.lt_iff, gt_iff_lt]
  constructor
  · rintro (h | ⟨he, h⟩)
    · exact Or.inl h
    · exact Or.inr ⟨he.symm, by
        rcases h with h | ⟨he2, h⟩
        · exact Or.inl h
        · exact Or.inr ⟨he2.symm, by
            rcases h with h | ⟨he3, h⟩
            · exact Or.inl h
            · exact Or.inr ⟨he3.symm, h⟩⟩⟩
  · rintro (h | ⟨he, h⟩)
    · exact Or.inl h
    · exact Or.inr ⟨he.symm, by
        rcases h with h | ⟨he2, h⟩
        · exact Or.inl h
        · exact Or.inr ⟨he2.symm, by
            rcases h with h | ⟨he3, h⟩
            · exact Or.inl h
            · exact Or.inr ⟨he3.symm, h⟩⟩⟩

theorem keyGt_irrefl (a : PriorityScore) : ¬ keyGt a a := by
  rw [keyGt_iff_lex]; exact lt_irrefl _

theorem keyGt_trans {a b c : PriorityScore} (h1 : keyGt a b) (h2 : keyGt b c) : keyGt a c := by
  rw [keyGt_iff_lex] at *; exact h2.trans h1

theorem keyGt_of_not_gt_of_gt {y m r : PriorityScore} (h1 : ¬ keyGt y m) (h2 : keyGt y r) :
    keyGt m r := by
  rw [keyGt_iff_lex] at *; exact lt_of_lt_of_le h2 (not_lt.mp h1)

/-- Python `max(scores, key=...)` returns a member no other member beats. -/
theorem pyMax_spec (m : PriorityScore) (l : List PriorityScore) :
    pyMax m l ∈ m :: l ∧ ∀ x ∈ m :: l, ¬ keyGt x (pyMax m l) := by
  induction l generalizing m with
  | nil =>
    refine ⟨by simp [pyMax], ?_⟩
    intro x hx
    rcases List.mem_cons.mp hx with rfl | hx
    · exact keyGt_irrefl _
    · simp at hx
  | cons y t ih =>
    by_cases hy : keyGt y m
    · have hstep : pyMax m (y :: t) = pyMax y t := by simp [pyMax, hy]
      rw [hstep]
      obtain ⟨hmem, hmax⟩ := ih y
      constructor
      · rcases List.mem_cons.mp hmem with h | h
        · rw [h]; simp
        · simp [h]
      · intro x hx
        rcases List.mem_cons.mp hx with rfl | hx
        · exact fun hgt => hmax y (List.mem_cons_self y t) (keyGt_trans hy hgt)
        · exact hmax x hx
    · have hstep : pyMax m (y :: t) = pyMax m t := by simp [pyMax, hy]
      rw [hstep]
      obtain ⟨hmem, hmax⟩ := ih m
      constructor
      · rcases List.mem_cons.mp hmem with h | h
        · rw [h]; simp
        · simp [h]
      · intro x hx
        rcases List.mem_cons.mp hx with rfl | hx
        · exact hmax x (List.mem_cons_self _ _)
        · rcases List.mem_cons.mp hx with rfl | hx
          · exact fun hgt => hmax m (List.mem_cons_self _ _) (keyGt_of_not_gt_of_gt hy hgt)
          · exact hmax x (List.mem_cons_of_mem _ hx)

/-- Everything `buildScores` guarantees about a successful scoring pass:
exactly the candidates with a GPS sample are scored, in order, and every
score is built from the claimed formula. -/
theorem buildScores_ok (st : EngineState) (rid : String) (smap : List (String × String))
    (cands : List String) (scores : List PriorityScore)
    (h : buildScores st rid smap cands = Except.ok scores) :
    scores.map (fun s => s.ambulance_id)
        = cands.filter (fun a => (lookup a st.gps_store).isSome) ∧
    ∀ s ∈ scores, ∃ gps pos,
      lookup s.ambulance_id st.gps_store = some gps ∧
      lookup rid st.signal_positions = some pos ∧
      s.dist_km = flatDist gps.lat gps.lng pos.1 pos.2 ∧
      s.eta_seconds
        = (if gps.speed_kmh > 0 then s.dist_km / (gps.speed_kmh / 3.6) else 999) ∧
      SEVERITY_MAP ((lookup s.ambulance_id smap).getD "LOW") = some s.severity_score ∧
      s.arrival_time = gps.updated_at := by
  induction cands generalizing scores with
  | nil =>
    rw [buildScores] at h
    have := Except.ok.inj h
    subst this
    simp
  | cons amb rest ih =>
    rw [buildScores] at h
    cases hg : lookup amb st.gps_store with
    | none =>
      simp only [hg] at h
      obtain ⟨h1, h2⟩ := ih scores h
      refine ⟨?_, h2⟩
      simp [List.filter, hg, h1]
    | some gps =>
      simp only [hg] at h
      cases hsm : SEVERITY_MAP ((lookup amb smap).getD "LOW") with
      | none => simp [hsm] at h
      | some sev_score =>
        simp only [hsm] at h
        cases hpos : lookup rid st.signal_positions with
        | none => simp [hpos] at h
        | some pos =>
          simp only [hpos] at h
          cases hrec : buildScores st rid smap rest with
          | error e => simp [hrec, Except.map] at h
          | ok tail =>
            simp only [hrec, Except.map, Except.ok.injEq] at h
            subst h
            obtain ⟨h1, h2⟩ := ih tail hrec
            constructor
            · simp [List.filter, hg, h1]
            · intro s hs
              rw [← hpos]
              rcases List.mem_cons.mp hs with rfl | hs
              · exact ⟨gps, pos, hg, hpos, rfl, rfl, hsm, rfl⟩
              · exact h2 s hs

/-- Vehicle `A` (CRITICAL, 400 km out, ETA 40 s by the source's pseudo-ETA)
and vehicle `B` (HIGH, 100 km out, ETA 10 s) both heading for `SIG-1`. -/
noncomputable def stDuel : EngineState :=
  { gps_store := [("A", { lat := 400 / 111, lng := 0, speed_kmh := 36, updated_at := 100 }),
      ("B", { lat := 100 / 111, lng := 0, speed_kmh := 36, updated_at := 200 })]
    ambulance_registry := []
    routes := []
    signal_positions := [("SIG-1", (0, 0))]
    signal_store := []
    resource_locks := []
    decision_log := [] }

/-- Severity assignments of the duel scenario. -/
def severityDuel : List (String × String) := [("A", "CRITICAL"), ("B", "HIGH")]

/-- The score `resolve_conflict` computes for vehicle `A`. -/
noncomputable def scoreA : PriorityScore :=
  { ambulance_id := "A", severity_score := 4, eta_seconds := 40, dist_km := 400
    arrival_time := 100 }

/-- The score `resolve_conflict` computes for vehicle `B`. -/
noncomputable def scoreB : PriorityScore :=
  { ambulance_id := "B", severity_score := 3, eta_seconds := 10, dist_km := 100
    arrival_time := 200 }

theorem buildScores_duel :
    buildScores stDuel "SIG-1" severityDuel ["A", "B"] = Except.ok [scoreA, scoreB] := by
  have hA : flatDist (400 / 111) 0 0 0 = 400 := by
    rw [flatDist_axis_nonneg _ _ (by norm_num)]; norm_num
  have hB : flatDist (100 / 111) 0 0 0 = 100 := by
    rw [flatDist_axis_nonneg _ _ (by norm_num)]; norm_num
  simp [buildScores, stDuel, severityDuel, lookup, SEVERITY_MAP, Except.map, hA, hB,
    scoreA, scoreB]
  norm_num

theorem resolve_duel :
    (resolve_conflict stDuel "SIG-1" ["A", "B"] severityDuel 0).map (fun p => p.2)
      = Except.ok (some "A") := by
  have hno : ¬ keyGt scoreB scoreA := by norm_num [keyGt, scoreA, scoreB]
  have hmax : pyMax scoreA [scoreB] = scoreA := by simp [pyMax, hno]
  have hwin : (pyMax scoreA [scoreB]).ambulance_id = "A" := by rw [hmax]; rfl
  rw [resolve_conflict, buildScores_duel]
  simp [Except.map, hwin]

/-- C6: a successful arbitration scores exactly the candidates with known
positions using `(severity_rank, -eta, -dist, arrival)` — with
ETA `dist / (speed/3.6)` or the 999 sentinel — and returns a scored candidate
that no other beats under the strict lexicographic tuple order `keyGt`
(severity first, then lower ETA, then shorter distance, then later arrival);
concretely, CRITICAL `A` with ETA 40 s beats HIGH `B` with ETA 10 s. -/
theorem C6_scoring :
    (∀ (st : EngineState) (rid : String) (cands : List String)
        (smap : List (String × String)) (now : ℝ) (p : EngineState × Option String)
        (w : String),
        resolve_conflict st rid cands smap now = Except.ok p → p.2 = some w →
        ∃ scores winner,
          buildScores st rid smap cands = Except.ok scores ∧
          scores.map (fun s => s.ambulance_id)
            = cands.filter (fun a => (lookup a st.gps_store).isSome) ∧
          (∀ s ∈ scores, ∃ gps pos,
            lookup s.ambulance_id st.gps_store = some gps ∧
            lookup rid st.signal_positions = some pos ∧
            s.dist_km = flatDist gps.lat gps.lng pos.1 pos.2 ∧
            s.eta_seconds
              = (if gps.speed_kmh > 0 then s.dist_km / (gps.speed_kmh / 3.6) else 999) ∧
            SEVERITY_MAP ((lookup s.ambulance_id smap).getD "LOW") = some s.severity_score ∧
            s.arrival_time = gps.updated_at) ∧
          winner ∈ scores ∧ winner.ambulance_id = w ∧
          ∀ s ∈ scores, ¬ keyGt s winner) ∧
    (buildScores stDuel "SIG-1" severityDuel ["A", "B"] = Except.ok [scoreA, scoreB] ∧
     scoreA.severity_score = 4 ∧ scoreA.eta_seconds = 40 ∧
     scoreB.severity_score = 3 ∧ scoreB.eta_seconds = 10 ∧
     (resolve_conflict stDuel "SIG-1" ["A", "B"] severityDuel 0).map (fun p => p.2)
       = Except.ok (some "A")) := by
  constructor
  · intro st rid cands smap now p w h hw
    rw [resolve_conflict] at h
    cases hb : buildScores st rid smap cands with
    | error e => rw [hb] at h; exact absurd h (by simp)
    | ok scores =>
      rw [hb] at h
      cases scores with
      | nil =>
        have hp := (Except.ok.inj h).symm
        subst hp
        exact absurd hw (by simp)
      | cons s0 srest =>
        have hp := (Except.ok.inj h).symm
        subst hp
        obtain ⟨h1, h2⟩ := buildScores_ok st rid smap cands (s0 :: srest) hb
        obtain ⟨hmem, hmax⟩ := pyMax_spec s0 srest
        exact ⟨s0 :: srest, pyMax s0 srest, rfl, h1, h2, hmem, Option.some.inj hw, hmax⟩
  · exact ⟨buildScores_duel, rfl, rfl, rfl, rfl, resolve_duel⟩

/-- Witness for `C6_scoring` on the duel scenario. -/
theorem C6_witness :
    ∃ scores winner,
      buildScores stDuel "SIG-1" severityDuel ["A", "B"] = Except.ok scores ∧
      winner ∈ scores ∧ winner.ambulance_id = "A" ∧ ∀ s ∈ scores, ¬ keyGt s winner := by
  obtain ⟨p, hp⟩ : ∃ p, resolve_conflict stDuel "SIG-1" ["A", "B"] severityDuel 0
      = Except.ok p := by
    have := resolve_duel
    cases htr : resolve_conflict stDuel "SIG-1" ["A", "B"] severityDuel 0 with
    | ok q => exact ⟨q, rfl⟩
    | error e => rw [htr] at this; exact absurd this (by simp [Except.map])
  have hw : p.2 = some "A" := by
    have := resolve_duel
    rw [hp] at this
    simpa [Except.map] using this
  obtain ⟨scores, winner, h1, _, _, h4, h5, h6⟩ :=
    C6_scoring.1 stDuel "SIG-1" ["A", "B"] severityDuel 0 p "A" hp hw
  exact ⟨scores, winner, h1, h4, h5, h6⟩

/-! ## C9: bounded history and decision log -/

/-- Every successful call appends exactly one history entry (evicting the
oldest when the 50-cap is hit). -/
theorem transition_ok_history (fsm : TrafficSignalFSM α) (now : α) (amb : String)
    (d : α) (sev : String) (cw : Option Bool) (p : TrafficSignalFSM α × SignalState)
    (htr : transition fsm now amb d sev cw = Except.ok p) :
    ∃ e, p.1.history
      = if (fsm.history ++ [e]).length > 50 then (fsm.history ++ [e]).drop 1
        else fsm.history ++ [e] := by
  cases hn : normalize_severity sev with
  | error e => rw [transition, hn] at htr; exact absurd htr (by simp [Except.bind])
  | ok s =>
    rw [transition, hn] at htr
    simp only [Except.bind, bind, pure, Except.pure] at htr
    have hp := (Except.ok.inj htr).symm
    subst hp
    exact ⟨_, rfl⟩

/-- One successful call keeps the history within the 50-entry bound. -/
theorem transition_history_le (fsm : TrafficSignalFSM α) (now : α) (amb : String)
    (d : α) (sev : String) (cw : Option Bool) (p : TrafficSignalFSM α × SignalState)
    (hlen : fsm.history.length ≤ 50)
    (htr : transition fsm now amb d sev cw = Except.ok p) :
    p.1.history.length ≤ 50 := by
  obtain ⟨e, he⟩ := transition_ok_history fsm now amb d sev cw p htr
  rw [he]
  by_cases hc : fsm.history.length + 1 > 50
  · rw [if_pos (by simpa [List.length_append] using hc)]
    simp only [List.length_drop, List.length_append, List.length_cons, List.length_nil]
    omega
  · rw [if_neg (by simpa [List.length_append] using hc)]
    simp only [List.length_append, List.length_cons, List.length_nil]
    omega

/-- One successful arbitration keeps the decision log within its 1000-entry
bound. -/
theorem resolve_log_le (st : EngineState) (rid : String) (cands : List String)
    (smap : List (String × String)) (now : ℝ) (p : EngineState × Option String)
    (hlen : st.decision_log.length ≤ 1000)
    (h : resolve_conflict st rid cands smap now = Except.ok p) :
    p.1.decision_log.length ≤ 1000 := by
  rw [resolve_conflict] at h
  cases hb : buildScores st rid smap cands with
  | error e => rw [hb] at h; exact absurd h (by simp)
  | ok scores =>
    rw [hb] at h
    cases scores with
    | nil =>
      have hp := (Except.ok.inj h).symm
      subst hp
      exact hlen
    | cons s0 srest =>
      have hp := (Except.ok.inj h).symm
      subst hp
      dsimp only
      by_cases hc : st.decision_log.length + 1 > 1000
      · rw [if_pos (by simp only [List.length_append, List.length_cons, List.length_nil]; omega)]
        simp only [List.length_drop, List.length_append, List.length_cons, List.length_nil]
        omega
      · rw [if_neg (by simp only [List.length_append, List.length_cons, List.length_nil]; omega)]
        simp only [List.length_append, List.length_cons, List.length_nil]
        omega

/-- Iteration harness: a sequence of `transition` calls on one FSM, the object
left unchanged whenever a call raises (as the caller catching the
`ValueError` would observe). -/
def runCalls : TrafficSignalFSM α → List (α × String × α × String × Option Bool) →
    TrafficSignalFSM α
  | fsm, [] => fsm
  | fsm, (now, amb, d, sev, cw) :: rest =>
    match transition fsm now amb d sev cw with
    | Except.ok p => runCalls p.1 rest
    | Except.error _ => runCalls fsm rest

/-- Iteration harness for `resolve_conflict`. -/
noncomputable def runResolves :
    EngineState → List (String × List String × List (String × String) × ℝ) → EngineState
  | st, [] => st
  | st, (rid, cands, smap, now) :: rest =>
    match resolve_conflict st rid cands smap now with
    | Except.ok p => runResolves p.1 rest
    | Except.error _ => runResolves st rest

/-- C9: every successful transition appends exactly one history entry (state
change or not); the history never exceeds 50 entries (at the cap the oldest
entry is dropped and the newest is the last element), and stays bounded under
any sequence of calls; the decision log of `resolve_conflict` likewise never
exceeds 1000 entries under any sequence of arbitrations. -/
theorem C9_ring_buffers :
    (∀ (fsm : TrafficSignalFSM α) (now : α) (amb : String) (d : α) (sev : String)
        (cw : Option Bool) (p : TrafficSignalFSM α × SignalState),
        transition fsm now amb d sev cw = Except.ok p →
        ∃ e, p.1.history
          = if (fsm.history ++ [e]).length > 50 then (fsm.history ++ [e]).drop 1
            else fsm.history ++ [e]) ∧
    (∀ (fsm : TrafficSignalFSM α) (now : α) (amb : String) (d : α) (sev : String)
        (cw : Option Bool) (p : TrafficSignalFSM α × SignalState),
        fsm.history.length ≤ 50 → transition fsm now amb d sev cw = Except.ok p →
        p.1.history.length ≤ 50) ∧
    (∀ (fsm : TrafficSignalFSM α) (now : α) (amb : String) (d : α) (sev : String)
        (cw : Option Bool) (p : TrafficSignalFSM α × SignalState),
        fsm.history.length = 50 → transition fsm now amb d sev cw = Except.ok p →
        ∃ e, p.1.history = fsm.history.drop 1 ++ [e] ∧
          p.1.history.getLast? = some e ∧ p.1.history.length = 50) ∧
    (∀ (fsm : TrafficSignalFSM α) (inputs : List (α × String × α × String × Option Bool)),
        fsm.history.length ≤ 50 → (runCalls fsm inputs).history.length ≤ 50) ∧
    (∀ (st : EngineState) (rid : String) (cands : List String)
        (smap : List (String × String)) (now : ℝ) (p : EngineState × Option String),
        st.decision_log.length ≤ 1000 →
        resolve_conflict st rid cands smap now = Except.ok p →
        p.1.decision_log.length ≤ 1000) ∧
    (∀ (st : EngineState)
        (inputs : List (String × List String × List (String × String) × ℝ)),
        st.decision_log.length ≤ 1000 →
        (runResolves st inputs).decision_log.length ≤ 1000) := by
  refine ⟨transition_ok_history, transition_history_le, ?_, ?_, resolve_log_le, ?_⟩
  · intro fsm now amb d sev cw p hlen htr
    obtain ⟨e, he⟩ := transition_ok_history fsm now amb d sev cw p htr
    rw [if_pos (by simp only [List.length_append, List.length_cons, List.length_nil]; omega)]
      at he
    have hne : fsm.history.length ≥ 1 := by omega
    rw [List.drop_append_of_le_length (by omega)] at he
    refine ⟨e, by simpa using he, ?_, ?_⟩
    · rw [he]; simp
    · rw [he]
      simp only [List.length_append, List.length_drop, List.length_cons, List.length_nil]
      omega
  · intro fsm inputs
    induction inputs generalizing fsm with
    | nil => intro h; simpa [runCalls] using h
    | cons hd tl ih =>
      intro h
      obtain ⟨now, amb, d, sev, cw⟩ := hd
      rw [runCalls]
      cases htr : transition fsm now amb d sev cw with
      | ok p => exact ih p.1 (transition_history_le fsm now amb d sev cw p h htr)
      | error e => exact ih fsm h
  · intro st inputs
    induction inputs generalizing st with
    | nil => intro h; simpa [runResolves] using h
    | cons hd tl ih =>
      intro h
      obtain ⟨rid, cands, smap, now⟩ := hd
      rw [runResolves]
      cases htr : resolve_conflict st rid cands smap now with
      | ok p => exact ih p.1 (resolve_log_le st rid cands smap now p h htr)
      | error e => exact ih st h

/-- Witness for `C9_ring_buffers` at a fresh signal and an empty log. -/
theorem C9_witness :
    (initFSM (α := ℚ) "S1").history.length ≤ 50 ∧ fsmPrep.history.length ≤ 50 ∧
    stEmpty.decision_log.length ≤ 1000 ∧
    ({ stEmpty with resource_locks := [("SIG-1", none)] }
      : EngineState).decision_log.length ≤ 1000 := by
  refine ⟨by simp [initFSM], ?_, by simp [stEmpty], ?_⟩
  · exact (C9_ring_buffers (α := ℚ)).2.1 (initFSM "S1") 0 "AMB" 0.49 "HIGH" none
      (fsmPrep, SignalState.prepare_priority) (by simp [initFSM])
      transition_fresh_high_049
  · exact (C9_ring_buffers (α := ℚ)).2.2.2.2.1 stEmpty "SIG-1" ["A"] [] 0
      ({ stEmpty with resource_locks := [("SIG-1", none)] }, none) (by simp [stEmpty])
      resolve_conflict_no_candidates

/-! ## C8: route-ahead selection -/

instance : IsTotal (ℕ × String × ℝ) (fun a b => a.2.2 ≤ b.2.2) :=
  ⟨fun _ _ => le_total _ _⟩

instance : IsTrans (ℕ × String × ℝ) (fun a b => a.2.2 ≤ b.2.2) :=
  ⟨fun _ _ _ => le_trans⟩

/-- The head of the distance-sorted list is a member achieving the minimum
distance. -/
theorem insertionSort_head_min (D : List (ℕ × String × ℝ)) (hD : D ≠ []) :
    (D.insertionSort (fun a b => a.2.2 ≤ b.2.2)).headI ∈ D ∧
    ∀ q ∈ D, (D.insertionSort (fun a b => a.2.2 ≤ b.2.2)).headI.2.2 ≤ q.2.2 := by
  have hperm := List.perm_insertionSort (fun a b : ℕ × String × ℝ => a.2.2 ≤ b.2.2) D
  have hsorted := List.sorted_insertionSort (fun a b : ℕ × String × ℝ => a.2.2 ≤ b.2.2) D
  cases hs : D.insertionSort (fun a b => a.2.2 ≤ b.2.2) with
  | nil =>
    rw [hs] at hperm
    exact absurd hperm.nil_eq.symm hD
  | cons h0 t =>
    rw [hs] at hperm hsorted
    constructor
    · exact hperm.mem_iff.mp (List.mem_cons_self _ _)
    · intro q hq
      have hq' : q ∈ h0 :: t := hperm.mem_iff.mpr hq
      rcases List.mem_cons.mp hq' with rfl | hq'
      · exact le_refl _
      · exact List.rel_of_sorted_cons hsorted q hq'

/-- The vehicle of the C8 scenario: on a five-signal route, 0.25 km past-side
of signal index 2 (distances 2.25, 1.25, 0.25, 0.75, 1.75 km). -/
noncomputable def stRoute : EngineState :=
  { gps_store := [("V", { lat := 2.25 / 111, lng := 0, speed_kmh := 30, updated_at := 0 })]
    ambulance_registry := [("V", some "H")]
    routes := [("H", ["S0", "S1", "S2", "S3", "S4"])]
    signal_positions := [("S0", (0, 0)), ("S1", (1 / 111, 0)), ("S2", (2 / 111, 0)),
      ("S3", (3 / 111, 0)), ("S4", (4 / 111, 0))]
    signal_store := []
    resource_locks := []
    decision_log := [] }

/-- Along one axis, oriented the other way. -/
theorem flatDist_axis_le (a b : ℝ) (h : a ≤ b) : flatDist a 0 b 0 = (b - a) * 111 := by
  rw [flatDist_axis, abs_sub_comm, abs_of_nonneg (by linarith)]

theorem route_ahead_scenario : get_route_ahead_signals stRoute "V" 3 = ["S3", "S4"] := by
  have e0 : flatDist (2.25 / 111) 0 0 0 = 2.25 := by
    rw [flatDist_axis_nonneg _ _ (by norm_num)]; norm_num
  have e1 : flatDist (2.25 / 111) 0 (1 / 111) 0 = 1.25 := by
    rw [flatDist_axis_nonneg _ _ (by norm_num)]; norm_num
  have e2 : flatDist (2.25 / 111) 0 (2 / 111) 0 = 0.25 := by
    rw [flatDist_axis_nonneg _ _ (by norm_num)]; norm_num
  have e3 : flatDist (2.25 / 111) 0 (3 / 111) 0 = 0.75 := by
    rw [flatDist_axis_le _ _ (by norm_num)]; norm_num
  have e4 : flatDist (2.25 / 111) 0 (4 / 111) 0 = 1.75 := by
    rw [flatDist_axis_le _ _ (by norm_num)]; norm_num
  have hD : routeDistances
        { lat := 2.25 / 111, lng := 0, speed_kmh := 30, updated_at := 0 }
        [("S0", (0, 0)), ("S1", (1 / 111, 0)), ("S2", (2 / 111, 0)),
          ("S3", (3 / 111, 0)), ("S4", (4 / 111, 0))] 0 ["S0", "S1", "S2", "S3", "S4"]
      = [(0, "S0", 2.25), (1, "S1", 1.25), (2, "S2", 0.25), (3, "S3", 0.75),
         (4, "S4", 1.75)] := by
    simp only [routeDistances, lookup, String.reduceEq, reduceIte, ite_true, ite_false,
      e0, e1, e2, e3, e4]
  rw [get_route_ahead_signals]
  simp only [stRoute, lookup, String.reduceEq, reduceIte, ite_true, ite_false,
    Option.join, Option.bind, id_eq, hD, reduceCtorEq]
  norm_num only [List.insertionSort, List.orderedInsert, ite_true, ite_false,
    List.headI, List.drop, List.take, String.reduceEq, reduceCtorEq]

/-- C8: the route-ahead selector returns an empty list when the vehicle has
no position sample or no route (unknown registry entry or unknown hospital);
otherwise, when at least one route signal has a stored position, it picks an
index of minimal flat-earth distance, starts one later when that distance is
under 0.3 km, and returns the contiguous route slice from there of length at
most `max_ahead` (never wrapping); on the 5-signal scenario with the vehicle
0.25 km from index 2 it returns the signals from index 3 on. -/
theorem C8_route_ahead :
    (∀ (st : EngineState) (amb : String) (max_ahead : ℕ),
        lookup amb st.gps_store = none → get_route_ahead_signals st amb max_ahead = []) ∧
    (∀ (st : EngineState) (amb : String) (max_ahead : ℕ),
        (lookup amb st.ambulance_registry).join = none →
        get_route_ahead_signals st amb max_ahead = []) ∧
    (∀ (st : EngineState) (amb : String) (max_ahead : ℕ) (gps : GPSState) (hid : String),
        lookup amb st.gps_store = some gps →
        (lookup amb st.ambulance_registry).join = some hid →
        lookup hid st.routes = none →
        get_route_ahead_signals st amb max_ahead = []) ∧
    (∀ (st : EngineState) (amb : String) (max_ahead : ℕ) (gps : GPSState) (hid : String)
        (route : List String),
        lookup amb st.gps_store = some gps →
        (lookup amb st.ambulance_registry).join = some hid →
        lookup hid st.routes = some route →
        routeDistances gps st.signal_positions 0 route ≠ [] →
        ∃ imin sig dmin,
          (imin, sig, dmin) ∈ routeDistances gps st.signal_positions 0 route ∧
          (∀ q ∈ routeDistances gps st.signal_positions 0 route, dmin ≤ q.2.2) ∧
          get_route_ahead_signals st amb max_ahead
            = (route.drop (if dmin < 0.3 then imin + 1 else imin)).take max_ahead) ∧
    (∀ (st : EngineState) (amb : String) (max_ahead : ℕ),
        (get_route_ahead_signals st amb max_ahead).length ≤ max_ahead) ∧
    get_route_ahead_signals stRoute "V" 3 = ["S3", "S4"] := by
  refine ⟨?_, ?_, ?_, ?_, ?_, route_ahead_scenario⟩
  · intro st amb max_ahead hg
    rw [get_route_ahead_signals]
    simp only [hg]
  · intro st amb max_ahead hr
    rw [get_route_ahead_signals]
    cases hg : lookup amb st.gps_store with
    | none => rfl
    | some gps =>
      simp only [hg]
      rw [hr]
  · intro st amb max_ahead gps hid hg hr hro
    rw [get_route_ahead_signals]
    simp only [hg]
    rw [hr]
    simp only [hro]
  · intro st amb max_ahead gps hid route hg hr hro hD
    obtain ⟨hmem, hmin⟩ := insertionSort_head_min _ hD
    refine ⟨((routeDistances gps st.signal_positions 0 route).insertionSort
        (fun a b => a.2.2 ≤ b.2.2)).headI.1,
      ((routeDistances gps st.signal_positions 0 route).insertionSort
        (fun a b => a.2.2 ≤ b.2.2)).headI.2.1,
      ((routeDistances gps st.signal_positions 0 route).insertionSort
        (fun a b => a.2.2 ≤ b.2.2)).headI.2.2, ?_, hmin, ?_⟩
    · simpa using hmem
    · rw [get_route_ahead_signals]
      simp only [hg]
      rw [hr]
      simp only [hro]
      rw [if_neg hD]
      simp [List.take_take]
  · intro st amb max_ahead
    rw [get_route_ahead_signals]
    cases hg : lookup amb st.gps_store with
    | none => simp
    | some gps =>
      simp only [hg]
      cases hr : (lookup amb st.ambulance_registry).join with
      | none => simp
      | some hid =>
        dsimp only
        cases hro : lookup hid st.routes with
        | none => simp
        | some route =>
          dsimp only
          by_cases hD : routeDistances gps st.signal_positions 0 route = []
          · simp [hD]
          · rw [if_neg hD]
            simp [List.take_take, List.length_take]

/-- Witness for `C8_route_ahead` on the five-signal scenario. -/
theorem C8_witness :
    lookup "V" stRoute.gps_store
      = some { lat := 2.25 / 111, lng := 0, speed_kmh := 30, updated_at := 0 } ∧
    (lookup "V" stRoute.ambulance_registry).join = some "H" ∧
    lookup "H" stRoute.routes = some ["S0", "S1", "S2", "S3", "S4"] ∧
    ∃ imin sig dmin,
      (imin, sig, dmin) ∈ routeDistances
        { lat := 2.25 / 111, lng := 0, speed_kmh := 30, updated_at := 0 }
        stRoute.signal_positions 0 ["S0", "S1", "S2", "S3", "S4"] ∧
      (∀ q ∈ routeDistances
          { lat := 2.25 / 111, lng := 0, speed_kmh := 30, updated_at := 0 }
          stRoute.signal_positions 0 ["S0", "S1", "S2", "S3", "S4"], dmin ≤ q.2.2) ∧
      get_route_ahead_signals stRoute "V" 3
        = ((["S0", "S1", "S2", "S3", "S4"]).drop
            (if dmin < 0.3 then imin + 1 else imin)).take 3 := by
  refine ⟨rfl, rfl, rfl, ?_⟩
  exact C8_route_ahead.2.2.2.1 stRoute "V" 3
    { lat := 2.25 / 111, lng := 0, speed_kmh := 30, updated_at := 0 } "H"
    ["S0", "S1", "S2", "S3", "S4"] rfl rfl rfl
    (by simp [routeDistances, stRoute, lookup])

/-! ## C2/C3: the corridor activation loop -/

/-- A signal already in `PREPARE_PRIORITY`/`GREEN_FOR_AMBULANCE` is skipped
entirely: no transition, no store change. -/
theorem corridorStep_skip (st : EngineState) (gps : GPSState) (amb sev : String)
    (now : ℝ) (prior : Option String) (sig : String) (fsm : TrafficSignalFSM ℝ)
    (hf : lookup sig st.signal_store = some fsm)
    (hst : fsm.current_state = SignalState.green_for_ambulance ∨
      fsm.current_state = SignalState.prepare_priority) :
    corridorStep st gps amb sev now prior sig = (st, none) := by
  rw [corridorStep, get_or_init_signal, hf]
  dsimp only
  rw [if_pos hst]

/-- A first-in-sequence or non-`CRITICAL` candidate that is not skipped is
driven through `transition` with the loop's distance and the arbitration
outcome read off the lock table. -/
theorem corridorStep_fires (st : EngineState) (gps : GPSState) (amb sev : String)
    (now : ℝ) (prior : Option String) (sig : String) (fsm : TrafficSignalFSM ℝ)
    (p : TrafficSignalFSM ℝ × SignalState)
    (hf : lookup sig st.signal_store = some fsm)
    (hns : ¬ (fsm.current_state = SignalState.green_for_ambulance ∨
      fsm.current_state = SignalState.prepare_priority))
    (hgate : prior = none ∨ sev ≠ "CRITICAL")
    (htr : transition fsm now amb (corridorDist gps st.signal_positions sig) sev
      (lockOutcome st.resource_locks sig amb) = Except.ok p) :
    corridorStep st gps amb sev now prior sig
      = ({ st with signal_store := setKey sig p.1 st.signal_store }, none) := by
  rw [corridorStep, get_or_init_signal, hf]
  dsimp only
  rw [if_neg hns]
  rcases hgate with rfl | hsev
  · try dsimp only
    rw [htr]
  · cases prior with
    | none =>
      try dsimp only
      rw [htr]
    | some pr =>
      try dsimp only
      rw [if_neg hsev, htr]

/-- The chain-reaction gate blocks: at `CRITICAL` severity a non-first
candidate whose predecessor is not (yet) in `PREPARE_PRIORITY` or
`GREEN_FOR_AMBULANCE` is left untouched. -/
theorem corridorStep_gate_blocked (st : EngineState) (gps : GPSState) (amb : String)
    (now : ℝ) (pr sig : String) (fsm prfsm : TrafficSignalFSM ℝ)
    (hf : lookup sig st.signal_store = some fsm)
    (hns : ¬ (fsm.current_state = SignalState.green_for_ambulance ∨
      fsm.current_state = SignalState.prepare_priority))
    (hpr : lookup pr st.signal_store = some prfsm)
    (hprs : ¬ (prfsm.current_state = SignalState.prepare_priority ∨
      prfsm.current_state = SignalState.green_for_ambulance)) :
    corridorStep st gps amb "CRITICAL" now (some pr) sig = (st, none) := by
  rw [corridorStep, get_or_init_signal, hf]
  try dsimp only
  rw [if_neg hns]
  try dsimp only
  rw [if_pos rfl, get_or_init_signal, hpr]
  try dsimp only
  rw [if_neg hprs]

/-- The chain-reaction gate passes: at `CRITICAL` severity a non-first
candidate whose predecessor is already in `PREPARE_PRIORITY` or
`GREEN_FOR_AMBULANCE` (possibly since earlier in the same call) is driven
through `transition`. -/
theorem corridorStep_gate_fires (st : EngineState) (gps : GPSState) (amb : String)
    (now : ℝ) (pr sig : String) (fsm prfsm : TrafficSignalFSM ℝ)
    (p : TrafficSignalFSM ℝ × SignalState)
    (hf : lookup sig st.signal_store = some fsm)
    (hns : ¬ (fsm.current_state = SignalState.green_for_ambulance ∨
      fsm.current_state = SignalState.prepare_priority))
    (hpr : lookup pr st.signal_store = some prfsm)
    (hprs : prfsm.current_state = SignalState.prepare_priority ∨
      prfsm.current_state = SignalState.green_for_ambulance)
    (htr : transition fsm now amb (corridorDist gps st.signal_positions sig) "CRITICAL"
      (lockOutcome st.resource_locks sig amb) = Except.ok p) :
    corridorStep st gps amb "CRITICAL" now (some pr) sig
      = ({ st with signal_store := setKey sig p.1 st.signal_store }, none) := by
  rw [corridorStep, get_or_init_signal, hf]
  try dsimp only
  rw [if_neg hns]
  try dsimp only
  rw [if_pos rfl, get_or_init_signal, hpr]
  try dsimp only
  rw [if_pos hprs, htr]

/-- The C2/C3 scenario vehicle, sitting at the origin. -/
noncomputable def gpsV : GPSState := { lat := 0, lng := 0, speed_kmh := 30, updated_at := 0 }

/-- Signal positions 0.3 km, 0.4 km and 0.45 km ahead of `gpsV` (all inside
the 0.5 km trigger radius and outside the 0.3 km passed radius). -/
noncomputable def posC2 : List (String × (ℝ × ℝ)) :=
  [("S1", (1 / 370, 0)), ("S2", (2 / 555, 0)), ("S3", (3 / 740, 0))]

theorem eD1 : flatDist 0 0 (1 / 370) 0 = 0.3 := by
  rw [flatDist_axis_le _ _ (by norm_num)]; norm_num

theorem eD2 : flatDist 0 0 (2 / 555) 0 = 0.4 := by
  rw [flatDist_axis_le _ _ (by norm_num)]; norm_num

theorem eD3 : flatDist 0 0 (3 / 740) 0 = 0.45 := by
  rw [flatDist_axis_le _ _ (by norm_num)]; norm_num

/-- C2 scenario: three cold (uninitialized, hence `NORMAL`) signals on the
route, all in trigger range, no locks held. -/
noncomputable def stC2 : EngineState :=
  { gps_store := [("V", gpsV)]
    ambulance_registry := [("V", some "H")]
    routes := [("H", ["S1", "S2", "S3"])]
    signal_positions := posC2
    signal_store := []
    resource_locks := []
    decision_log := [] }

/-- The store after the filter pass lazily created the three FSMs. -/
noncomputable def storeInit : List (String × TrafficSignalFSM ℝ) :=
  [("S1", initFSM "S1"), ("S2", initFSM "S2"), ("S3", initFSM "S3")]

/-- The FSM of a signal just driven from cold to `PREPARE_PRIORITY` by
vehicle `V` at `CRITICAL` severity and distance `d`. -/
noncomputable def prepFSM (sid : String) (d : ℝ) : TrafficSignalFSM ℝ :=
  { signal_id := sid
    current_state := SignalState.prepare_priority
    current_owner := some "V"
    history := [(SignalState.prepare_priority,
      { reason := "Ambulance approaching within 500m with HIGH/CRITICAL severity"
        severity := some "CRITICAL", distance := some d, conflict_winner := none })]
    green_start_time := none
    max_green_time := 60 }

theorem route_ahead_C2 : get_route_ahead_signals stC2 "V" 3 = ["S1", "S2", "S3"] := by
  have hD : routeDistances gpsV posC2 0 ["S1", "S2", "S3"]
      = [(0, "S1", 0.3), (1, "S2", 0.4), (2, "S3", 0.45)] := by
    simp only [routeDistances, posC2, gpsV, lookup, String.reduceEq, reduceIte, ite_true,
      ite_false, eD1, eD2, eD3]
  rw [get_route_ahead_signals]
  simp only [stC2, lookup, String.reduceEq, reduceIte, ite_true, ite_false,
    Option.join, Option.bind, id_eq, hD, reduceCtorEq]
  norm_num only [List.insertionSort, List.orderedInsert, ite_true, ite_false,
    List.headI, List.drop, List.take, String.reduceEq, reduceCtorEq]

theorem filter_C2 : corridorFilter gpsV stC2.signal_positions stC2.signal_store
    ["S1", "S2", "S3"] = (storeInit, ["S1", "S2", "S3"]) := by
  have h03 : ((0.3 : ℝ) > 1.5) = False := by norm_num
  have h04 : ((0.4 : ℝ) > 1.5) = False := by norm_num
  have h045 : ((0.45 : ℝ) > 1.5) = False := by norm_num
  simp only [corridorFilter, stC2, posC2, gpsV, lookup, get_or_init_signal, setKey,
    storeInit, String.reduceEq, reduceIte, ite_true, ite_false, eD1, eD2, eD3, h03, h04,
    h045]

/-- The engine state right after the filter pass of the C2 scenario. -/
noncomputable def stInitC2 : EngineState := { stC2 with signal_store := storeInit }

/-- State after activating `S1`. -/
noncomputable def st1C2 : EngineState :=
  { stC2 with signal_store :=
      [("S1", prepFSM "S1" 0.3), ("S2", initFSM "S2"), ("S3", initFSM "S3")] }

/-- State after activating `S1` and `S2`. -/
noncomputable def st2C2 : EngineState :=
  { stC2 with signal_store :=
      [("S1", prepFSM "S1" 0.3), ("S2", prepFSM "S2" 0.4), ("S3", initFSM "S3")] }

/-- State after activating all three signals. -/
noncomputable def st3C2 : EngineState :=
  { stC2 with signal_store :=
      [("S1", prepFSM "S1" 0.3), ("S2", prepFSM "S2" 0.4), ("S3", prepFSM "S3" 0.45)] }

theorem trans_S1_C2 : transition (α := ℝ) (initFSM "S1") 0 "V" 0.3 "CRITICAL" none
    = Except.ok (prepFSM "S1" 0.3, SignalState.prepare_priority) := by
  norm_num [transition, normalize_severity, VALID_SEVERITIES, initFSM, norm_CRITICAL, prepFSM]
  try simp

theorem trans_S2_C2 : transition (α := ℝ) (initFSM "S2") 0 "V" 0.4 "CRITICAL" none
    = Except.ok (prepFSM "S2" 0.4, SignalState.prepare_priority) := by
  norm_num [transition, normalize_severity, VALID_SEVERITIES, initFSM, norm_CRITICAL, prepFSM]
  try simp

theorem trans_S3_C2 : transition (α := ℝ) (initFSM "S3") 0 "V" 0.45 "CRITICAL" none
    = Except.ok (prepFSM "S3" 0.45, SignalState.prepare_priority) := by
  norm_num [transition, normalize_severity, VALID_SEVERITIES, initFSM, norm_CRITICAL, prepFSM]
  try simp

theorem step1_C2 : corridorStep stInitC2 gpsV "V" "CRITICAL" 0 none "S1" = (st1C2, none) := by
  have hcd : corridorDist gpsV stInitC2.signal_positions "S1" = 0.3 := by
    simp only [corridorDist, stInitC2, stC2, posC2, lookup, String.reduceEq, reduceIte,
      ite_true, ite_false, gpsV, eD1]
  have hlo : lockOutcome stInitC2.resource_locks "S1" "V" = none := rfl
  have h := corridorStep_fires stInitC2 gpsV "V" "CRITICAL" 0 none "S1" (initFSM "S1")
    (prepFSM "S1" 0.3, SignalState.prepare_priority) rfl (by simp [initFSM]) (Or.inl rfl)
    (by rw [hcd, hlo]; exact trans_S1_C2)
  rw [h]
  rfl

theorem step2_C2 : corridorStep st1C2 gpsV "V" "CRITICAL" 0 (some "S1") "S2"
    = (st2C2, none) := by
  have hcd : corridorDist gpsV st1C2.signal_positions "S2" = 0.4 := by
    simp only [corridorDist, st1C2, stC2, posC2, lookup, String.reduceEq, reduceIte,
      ite_true, ite_false, gpsV, eD2]
  have hlo : lockOutcome st1C2.resource_locks "S2" "V" = none := rfl
  have h := corridorStep_gate_fires st1C2 gpsV "V" 0 "S1" "S2" (initFSM "S2")
    (prepFSM "S1" 0.3) (prepFSM "S2" 0.4, SignalState.prepare_priority) rfl
    (by simp [initFSM]) rfl (Or.inl rfl)
    (by rw [hcd, hlo]; exact trans_S2_C2)
  rw [h]
  rfl

theorem step3_C2 : corridorStep st2C2 gpsV "V" "CRITICAL" 0 (some "S2") "S3"
    = (st3C2, none) := by
  have hcd : corridorDist gpsV st2C2.signal_positions "S3" = 0.45 := by
    simp only [corridorDist, st2C2, stC2, posC2, lookup, String.reduceEq, reduceIte,
      ite_true, ite_false, gpsV, eD3]
  have hlo : lockOutcome st2C2.resource_locks "S3" "V" = none := rfl
  have h := corridorStep_gate_fires st2C2 gpsV "V" 0 "S2" "S3" (initFSM "S3")
    (prepFSM "S2" 0.4) (prepFSM "S3" 0.45, SignalState.prepare_priority) rfl
    (by simp [initFSM]) rfl (Or.inl rfl)
    (by rw [hcd, hlo]; exact trans_S3_C2)
  rw [h]
  rfl

theorem loop_C2 : corridorLoop gpsV "V" "CRITICAL" 0 stInitC2 none ["S1", "S2", "S3"]
    = (st3C2, none) := by
  simp only [corridorLoop, step1_C2, step2_C2, step3_C2]

theorem corridor_C2 : get_corridor_ahead stC2 "V" "CRITICAL" 3 0
    = (st3C2, Except.ok ["S1", "S2", "S3"]) := by
  have hV : lookup "V" stC2.gps_store = some gpsV := rfl
  have hstInit : ({ stC2 with signal_store := storeInit } : EngineState) = stInitC2 := rfl
  rw [get_corridor_ahead]
  simp only [hV, route_ahead_C2, ne_eq, reduceCtorEq, not_false_iff, ite_true, if_true,
    List.take, filter_C2]
  rw [hstInit, loop_C2]

/-- C2, as stated, is false: one `get_corridor_ahead` call at `CRITICAL`
severity on a 3-signal filtered sequence with all three signals cold
activates all three — the chain gate reads the predecessor's state *after*
the current call already updated it, so `signal[1]` and `signal[2]` do not
wait for a prior call. -/
theorem C2_counterexample :
    lookup "S1" stC2.signal_store = none ∧
    lookup "S2" stC2.signal_store = none ∧
    lookup "S3" stC2.signal_store = none ∧
    (get_corridor_ahead stC2 "V" "CRITICAL" 3 0).2 = Except.ok ["S1", "S2", "S3"] ∧
    (lookup "S2" (get_corridor_ahead stC2 "V" "CRITICAL" 3 0).1.signal_store).map
        (fun f => f.current_state) = some SignalState.prepare_priority ∧
    (lookup "S3" (get_corridor_ahead stC2 "V" "CRITICAL" 3 0).1.signal_store).map
        (fun f => f.current_state) = some SignalState.prepare_priority := by
  refine ⟨rfl, rfl, rfl, ?_, ?_, ?_⟩ <;> rw [corridor_C2] <;> rfl

/-- C2 amended: at `CRITICAL` severity a non-first candidate is driven
through `transition` exactly when its predecessor is in `PREPARE_PRIORITY`
or `GREEN_FOR_AMBULANCE` *at the moment the loop reaches it* — a state the
predecessor may have entered earlier in the same call.  Hence one call on an
all-cold in-range 3-signal sequence activates all three, not only
`signal[0]`. -/
theorem C2_chain_gate :
    (∀ (st : EngineState) (gps : GPSState) (amb : String) (now : ℝ) (pr sig : String)
        (fsm prfsm : TrafficSignalFSM ℝ),
        lookup sig st.signal_store = some fsm →
        ¬ (fsm.current_state = SignalState.green_for_ambulance ∨
          fsm.current_state = SignalState.prepare_priority) →
        lookup pr st.signal_store = some prfsm →
        ¬ (prfsm.current_state = SignalState.prepare_priority ∨
          prfsm.current_state = SignalState.green_for_ambulance) →
        corridorStep st gps amb "CRITICAL" now (some pr) sig = (st, none)) ∧
    (∀ (st : EngineState) (gps : GPSState) (amb : String) (now : ℝ) (pr sig : String)
        (fsm prfsm : TrafficSignalFSM ℝ) (p : TrafficSignalFSM ℝ × SignalState),
        lookup sig st.signal_store = some fsm →
        ¬ (fsm.current_state = SignalState.green_for_ambulance ∨
          fsm.current_state = SignalState.prepare_priority) →
        lookup pr st.signal_store = some prfsm →
        (prfsm.current_state = SignalState.prepare_priority ∨
          prfsm.current_state = SignalState.green_for_ambulance) →
        transition fsm now amb (corridorDist gps st.signal_positions sig) "CRITICAL"
          (lockOutcome st.resource_locks sig amb) = Except.ok p →
        corridorStep st gps amb "CRITICAL" now (some pr) sig
          = ({ st with signal_store := setKey sig p.1 st.signal_store }, none)) ∧
    ((lookup "S2" (get_corridor_ahead stC2 "V" "CRITICAL" 3 0).1.signal_store).map
        (fun f => f.current_state) = some SignalState.prepare_priority ∧
     (lookup "S3" (get_corridor_ahead stC2 "V" "CRITICAL" 3 0).1.signal_store).map
        (fun f => f.current_state) = some SignalState.prepare_priority) := by
  refine ⟨?_, ?_, ?_, ?_⟩
  · intro st gps amb now pr sig fsm prfsm hf hns hpr hprs
    exact corridorStep_gate_blocked st gps amb now pr sig fsm prfsm hf hns hpr hprs
  · intro st gps amb now pr sig fsm prfsm p hf hns hpr hprs htr
    exact corridorStep_gate_fires st gps amb now pr sig fsm prfsm p hf hns hpr hprs htr
  · rw [corridor_C2]; rfl
  · rw [corridor_C2]; rfl

/-- Witness for `C2_chain_gate`: the gate blocks `S3` when its predecessor
`S2` is still cold. -/
theorem C2_witness :
    lookup "S3" stInitC2.signal_store = some (initFSM "S3") ∧
    lookup "S2" stInitC2.signal_store = some (initFSM "S2") ∧
    corridorStep stInitC2 gpsV "V" "CRITICAL" 0 (some "S2") "S3" = (stInitC2, none) := by
  refine ⟨rfl, rfl, ?_⟩
  exact C2_chain_gate.1 stInitC2 gpsV "V" 0 "S2" "S3" (initFSM "S3") (initFSM "S2")
    rfl (by simp [initFSM]) rfl (by simp [initFSM])

/-! ### C3: the suppressed-predecessor scenario -/

/-- C3 scenario: two in-range signals, the lock on `S1` held by another
vehicle, so `S1` stays `NORMAL` (suppressed) and the `CRITICAL` chain gate
then blocks `S2` entirely. -/
noncomputable def stC3 : EngineState :=
  { gps_store := [("V", gpsV)]
    ambulance_registry := [("V", some "H")]
    routes := [("H", ["S1", "S2"])]
    signal_positions := [("S1", (1 / 370, 0)), ("S2", (2 / 555, 0))]
    signal_store := []
    resource_locks := [("S1", some "OTHER")]
    decision_log := [] }

/-- Signal `S1` after its suppressed transition: still `NORMAL`, one history entry. -/
noncomputable def suppFSM : TrafficSignalFSM ℝ :=
  { signal_id := "S1"
    current_state := SignalState.normal
    current_owner := none
    history := [(SignalState.normal,
      { reason := "Suppressed by conflict resolution (lost arbitration)"
        severity := some "CRITICAL", distance := some 0.3, conflict_winner := some false })]
    green_start_time := none
    max_green_time := 60 }

/-- C3 store after the filter pass. -/
noncomputable def storeInitC3 : List (String × TrafficSignalFSM ℝ) :=
  [("S1", initFSM "S1"), ("S2", initFSM "S2")]

noncomputable def stInitC3 : EngineState := { stC3 with signal_store := storeInitC3 }

/-- C3 state after the loop: `S1` suppressed, `S2` untouched. -/
noncomputable def st1C3 : EngineState :=
  { stC3 with signal_store := [("S1", suppFSM), ("S2", initFSM "S2")] }

theorem route_ahead_C3 : get_route_ahead_signals stC3 "V" 3 = ["S1", "S2"] := by
  have hD : routeDistances gpsV [("S1", (1 / 370, 0)), ("S2", (2 / 555, 0))] 0 ["S1", "S2"]
      = [(0, "S1", 0.3), (1, "S2", 0.4)] := by
    simp only [routeDistances, gpsV, lookup, String.reduceEq, reduceIte, ite_true,
      ite_false, eD1, eD2]
  rw [get_route_ahead_signals]
  simp only [stC3, lookup, String.reduceEq, reduceIte, ite_true, ite_false,
    Option.join, Option.bind, id_eq, hD, reduceCtorEq]
  norm_num only [List.insertionSort, List.orderedInsert, ite_true, ite_false,
    List.headI, List.drop, List.take, String.reduceEq, reduceCtorEq]

theorem filter_C3 : corridorFilter gpsV stC3.signal_positions stC3.signal_store
    ["S1", "S2"] = (storeInitC3, ["S1", "S2"]) := by
  have h03 : ((0.3 : ℝ) > 1.5) = False := by norm_num
  have h04 : ((0.4 : ℝ) > 1.5) = False := by norm_num
  simp only [corridorFilter, stC3, gpsV, lookup, get_or_init_signal, setKey, storeInitC3,
    String.reduceEq, reduceIte, ite_true, ite_false, eD1, eD2, h03, h04]

theorem trans_S1_C3 : transition (α := ℝ) (initFSM "S1") 0 "V" 0.3 "CRITICAL" (some false)
    = Except.ok (suppFSM, SignalState.normal) := by
  norm_num [transition, normalize_severity, VALID_SEVERITIES, initFSM, norm_CRITICAL,
    suppFSM]
  try simp

theorem step1_C3 : corridorStep stInitC3 gpsV "V" "CRITICAL" 0 none "S1" = (st1C3, none) := by
  have hcd : corridorDist gpsV stInitC3.signal_positions "S1" = 0.3 := by
    simp only [corridorDist, stInitC3, stC3, lookup, String.reduceEq, reduceIte,
      ite_true, ite_false, gpsV, eD1]
  have hlo : lockOutcome stInitC3.resource_locks "S1" "V" = some false := rfl
  have h := corridorStep_fires stInitC3 gpsV "V" "CRITICAL" 0 none "S1" (initFSM "S1")
    (suppFSM, SignalState.normal) rfl (by simp [initFSM]) (Or.inl rfl)
    (by rw [hcd, hlo]; exact trans_S1_C3)
  rw [h]
  rfl

theorem step2_C3 : corridorStep st1C3 gpsV "V" "CRITICAL" 0 (some "S1") "S2"
    = (st1C3, none) := by
  exact corridorStep_gate_blocked st1C3 gpsV "V" 0 "S1" "S2" (initFSM "S2") suppFSM
    rfl (by simp [initFSM]) rfl (by simp [suppFSM])

theorem corridor_C3 : get_corridor_ahead stC3 "V" "CRITICAL" 3 0
    = (st1C3, Except.ok ["S1", "S2"]) := by
  have hV : lookup "V" stC3.gps_store = some gpsV := rfl
  have hstInit : ({ stC3 with signal_store := storeInitC3 } : EngineState) = stInitC3 := rfl
  have hloop : corridorLoop gpsV "V" "CRITICAL" 0 stInitC3 none ["S1", "S2"]
      = (st1C3, none) := by
    simp only [corridorLoop, step1_C3, step2_C3]
  rw [get_corridor_ahead]
  simp only [hV, route_ahead_C3, ne_eq, reduceCtorEq, not_false_iff, ite_true, if_true,
    List.take, filter_C3]
  rw [hstInit, hloop]

/-- C3, as stated, is false: `S2` is a remaining candidate whose state is not
`PREPARE_PRIORITY`/`GREEN_FOR_AMBULANCE`, yet no `transition` is driven for
it (its history stays empty) because the `CRITICAL` chain gate blocks it
behind the suppressed `S1`; a transition call would have appended exactly one
history entry, as it did for `S1`. -/
theorem C3_counterexample :
    (get_corridor_ahead stC3 "V" "CRITICAL" 3 0).2 = Except.ok ["S1", "S2"] ∧
    (lookup "S1" (get_corridor_ahead stC3 "V" "CRITICAL" 3 0).1.signal_store).map
        (fun f => (f.current_state, f.history.length)) = some (SignalState.normal, 1) ∧
    (lookup "S2" (get_corridor_ahead stC3 "V" "CRITICAL" 3 0).1.signal_store).map
        (fun f => (f.current_state, f.history.length)) = some (SignalState.normal, 0) := by
  refine ⟨?_, ?_, ?_⟩ <;> rw [corridor_C3] <;> rfl

/-- C3 amended: candidates already in `PREPARE_PRIORITY`/`GREEN_FOR_AMBULANCE`
are skipped entirely (no lock read, no transition, no store change); any other
candidate is driven through `transition` with the arbitration outcome read
off ConflictResolver's lock table (`True` for this vehicle's lock, `False`
for another vehicle's non-empty lock, `None` for an absent/`None`/empty
lock) — except when the `CRITICAL` chain gate of C2 blocks it. -/
theorem C3_skip_and_drive :
    (∀ (st : EngineState) (gps : GPSState) (amb sev : String) (now : ℝ)
        (prior : Option String) (sig : String) (fsm : TrafficSignalFSM ℝ),
        lookup sig st.signal_store = some fsm →
        (fsm.current_state = SignalState.green_for_ambulance ∨
          fsm.current_state = SignalState.prepare_priority) →
        corridorStep st gps amb sev now prior sig = (st, none)) ∧
    (∀ (st : EngineState) (gps : GPSState) (amb sev : String) (now : ℝ)
        (prior : Option String) (sig : String) (fsm : TrafficSignalFSM ℝ)
        (p : TrafficSignalFSM ℝ × SignalState),
        lookup sig st.signal_store = some fsm →
        ¬ (fsm.current_state = SignalState.green_for_ambulance ∨
          fsm.current_state = SignalState.prepare_priority) →
        (prior = none ∨ sev ≠ "CRITICAL") →
        transition fsm now amb (corridorDist gps st.signal_positions sig) sev
          (lockOutcome st.resource_locks sig amb) = Except.ok p →
        corridorStep st gps amb sev now prior sig
          = ({ st with signal_store := setKey sig p.1 st.signal_store }, none)) ∧
    (∀ (locks : List (String × Option String)) (sig amb : String),
        ((lookup sig locks).join = none → lockOutcome locks sig amb = none) ∧
        (∀ w, (lookup sig locks).join = some w → w ≠ "" →
          lockOutcome locks sig amb = some (decide (w = amb)))) := by
  refine ⟨corridorStep_skip, corridorStep_fires, ?_⟩
  intro locks sig amb
  constructor
  · intro h
    rw [lockOutcome, h]
  · intro w h hw
    rw [lockOutcome, h]
    simp only [hw, reduceIte, ite_false, if_neg hw]

/-- Witness for `C3_skip_and_drive`: an already-prepared signal is skipped. -/
theorem C3_witness :
    lookup "S1" st1C2.signal_store = some (prepFSM "S1" 0.3) ∧
    (prepFSM "S1" 0.3).current_state = SignalState.prepare_priority ∧
    corridorStep st1C2 gpsV "V" "CRITICAL" 0 none "S1" = (st1C2, none) := by
  refine ⟨rfl, rfl, ?_⟩
  exact C3_skip_and_drive.1 st1C2 gpsV "V" "CRITICAL" 0 none "S1" (prepFSM "S1" 0.3)
    rfl (Or.inr rfl)

end Medico
